import Mathlib

/-!
Verification development for the FlowSketch content-generation pipeline
(Text Parser → Diagram Engine → Specification Generator).

The Lean definitions below are a shallow embedding of the Python sources in
`backend/core/services/text_parser.py`, `backend/core/services/diagram_engine.py`
and `backend/core/services/specification_generator.py`:

* Python `float` values are modelled as exact rationals (`ℚ`); the float math
  library (`math.pi`, `math.cos`, `math.sin`, `math.sqrt`) is abstracted as an
  oracle parameter, since those functions return floats, i.e. rationals, of
  which the algorithms use no arithmetic properties.
* Python dicts that are only built once and read with `.get` are modelled as
  association lists in insertion order.
* The spaCy NLP pipeline is an external collaborator of the parser; the two
  functions that consume its output (`extract_entities`,
  `identify_relationships`) are abstracted as function parameters of
  `parse_text`.
* Python exceptions are modelled with `Except`; the per-call mutable fields
  `node_counter` / `node_id_map` of `DiagramEngine` are threaded explicitly as
  an `EngineState` value.
-/

/- The kernel evaluates rational arithmetic in witness proofs by `decide`;
the sealed core `Rat` operations are made semireducible for that purpose. -/
unseal Rat.ofScientific Rat.add Rat.mul Rat.inv Rat.sub

/-! ### Generic string helpers (Python `in`, `re.sub(r"\s+", " ", ·)`) -/

/-- `matchesAt text pat` is true when `pat` is a prefix of `text`
(character lists). -/
def matchesAt : List Char → List Char → Bool
  | _, [] => true
  | [], _ :: _ => false
  | c :: cs, p :: ps => c == p && matchesAt cs ps

/-- `strHasSub text pat`: Python's substring test `pat in text`,
on character lists. -/
def strHasSub : List Char → List Char → Bool
  | _, [] => true
  | [], _ :: _ => false
  | c :: cs, p :: ps => matchesAt (c :: cs) (p :: ps) || strHasSub cs (p :: ps)

/-- Python `pat in text` on strings. -/
def pyIn (pat text : String) : Bool := strHasSub text.data pat.data

/-- Auxiliary for `collapseWs`: the boolean records whether the previous
character was whitespace (so a maximal whitespace run contributes exactly one
space, as `re.sub(r"\s+", " ", s)` does). -/
def collapseWsAux : Bool → List Char → List Char
  | _, [] => []
  | prevWs, c :: cs =>
    if c.isWhitespace then
      if prevWs then collapseWsAux true cs
      else ' ' :: collapseWsAux true cs
    else c :: collapseWsAux false cs

/-- `re.sub(r"\s+", " ", s)`: collapse every whitespace run to one space. -/
def collapseWs (l : List Char) : List Char := collapseWsAux false l

/-- Python `str.lower()` (ASCII case folding, as in the texts at hand). -/
def pyLower (s : String) : String := String.mk (s.data.map Char.toLower)

/-- Python `str.strip()`: drop leading and trailing whitespace. -/
def pyStrip (s : String) : String :=
  String.mk (((s.data.dropWhile Char.isWhitespace).reverse.dropWhile
    Char.isWhitespace).reverse)

/-- Python `s.startswith(pre)`. -/
def pyStartsWith (s pre : String) : Bool := matchesAt s.data pre.data

/-- Python `s.split("\n")[0]`: everything before the first newline. -/
def firstLine (s : String) : String :=
  String.mk (s.data.takeWhile (fun c => c != '\n'))

/-- Python `s.replace(c, d)` for one-character patterns (the only shape the
sources use). -/
def pyReplaceChar (s : String) (c d : Char) : String :=
  String.mk (s.data.map (fun x => if x == c then d else x))

/-! ### Text-parser data model (`text_parser.py`) -/

/-- `EntityType` enum. -/
inductive EntityType
  | object
  | process
  | actor
  | data
  | system
  | event
deriving DecidableEq, Repr

/-- `.value` of the `EntityType` enum members. -/
def EntityType.value : EntityType → String
  | .object => "object"
  | .process => "process"
  | .actor => "actor"
  | .data => "data"
  | .system => "system"
  | .event => "event"

/-- `DiagramType` enum (`class` is a Lean keyword, hence `class_`). -/
inductive DiagramType
  | flowchart
  | erd
  | sequence
  | class_
  | process
deriving DecidableEq, Repr

/-- `.value` of the `DiagramType` enum members. -/
def DiagramType.value : DiagramType → String
  | .flowchart => "flowchart"
  | .erd => "erd"
  | .sequence => "sequence"
  | .class_ => "class"
  | .process => "process"

/-- `Entity` dataclass. `properties: Dict[str, Any]` is modelled as an
association list of strings (the pipeline only ever iterates over it and
stringifies the values). -/
structure Entity where
  name : String
  type : EntityType
  properties : List (String × String)
  confidence : ℚ
  start_pos : Int
  end_pos : Int
deriving DecidableEq, Repr

/-- `Relationship` dataclass. -/
structure Relationship where
  source : String
  target : String
  type : String
  label : String
  confidence : ℚ
deriving DecidableEq, Repr

/-- `ParsedContent` dataclass. `diagram_type_suggestions` is a dict in
insertion order, modelled as an association list. -/
structure ParsedContent where
  entities : List Entity
  relationships : List Relationship
  suggested_diagram_type : DiagramType
  diagram_type_suggestions : List (String × ℚ)
  confidence : ℚ
  raw_text : String
deriving DecidableEq, Repr

/-! ### Diagram-type scoring (`_calculate_*_score`) -/

/-- `TextParserService._calculate_erd_score`. -/
def calculate_erd_score (text : String) (entities : List Entity)
    (relationships : List Relationship) : ℚ :=
  let text_lower := pyLower text
  let erd_keywords := ["database", "table", "schema", "entity", "attribute",
    "primary key", "foreign key", "relationship", "one-to-many", "many-to-many",
    "one-to-one", "normalization", "sql", "record", "field", "column", "row",
    "index", "constraint", "relational"]
  let keyword_matches : ℚ := (erd_keywords.countP (fun kw => pyIn kw text_lower) : ℕ)
  let score : ℚ := keyword_matches * 0.15
  let data_entities := entities.countP (fun e => e.type == EntityType.data)
  let score := score +
    (if data_entities > 2 then (0.4 : ℚ) else if data_entities > 0 then 0.2 else 0)
  let object_entities := entities.countP (fun e => e.type == EntityType.object)
  let score := score + (if object_entities > 1 then (0.2 : ℚ) else 0)
  let erd_relationship_types := ["contains", "belongs_to", "associated_with", "references"]
  let erd_relationships := relationships.filter (fun r => erd_relationship_types.contains r.type)
  let score := score +
    (if erd_relationships.length > 0 then (erd_relationships.length : ℚ) * 0.1 else 0)
  let score := score +
    (if entities.length > 3 && relationships.length > 2 then (0.2 : ℚ) else 0)
  min score 1

/-- `TextParserService._calculate_sequence_score`. -/
def calculate_sequence_score (text : String) (entities : List Entity)
    (relationships : List Relationship) : ℚ :=
  let text_lower := pyLower text
  let sequence_keywords := ["sequence", "interaction", "message", "timeline",
    "communication", "request", "response", "call", "invoke", "send", "receive",
    "actor", "participant", "lifeline", "activation", "synchronous",
    "asynchronous", "return", "reply", "step", "order", "flow"]
  let keyword_matches : ℚ := (sequence_keywords.countP (fun kw => pyIn kw text_lower) : ℕ)
  let score : ℚ := keyword_matches * 0.12
  let actors := entities.countP (fun e => e.type == EntityType.actor)
  let systems := entities.countP (fun e => e.type == EntityType.system)
  let score := score +
    (if actors > 0 && systems > 0 then (0.3 : ℚ)
     else if actors > 0 || systems > 0 then 0.15 else 0)
  let communication_types := ["sends", "receives", "communicates_with", "calls", "invokes"]
  let comm_relationships :=
    relationships.filter (fun r => communication_types.any (fun ct => pyIn ct r.type))
  let score := score +
    (if comm_relationships.length > 0 then (comm_relationships.length : ℚ) * 0.15 else 0)
  let temporal_words := ["after", "before", "then", "next", "first", "finally", "when"]
  let temporal_matches : ℚ := (temporal_words.countP (fun w => pyIn w text_lower) : ℕ)
  let score := score + temporal_matches * 0.08
  min score 1

/-- `TextParserService._calculate_class_score`. -/
def calculate_class_score (text : String) (entities : List Entity)
    (relationships : List Relationship) : ℚ :=
  let text_lower := pyLower text
  let class_keywords := ["class", "object", "inheritance", "extends", "inherits",
    "implements", "interface", "abstract", "method", "attribute", "property",
    "encapsulation", "polymorphism", "composition", "aggregation", "association",
    "dependency", "generalization", "specialization", "superclass", "subclass",
    "parent", "child", "derived"]
  let keyword_matches : ℚ := (class_keywords.countP (fun kw => pyIn kw text_lower) : ℕ)
  let score : ℚ := keyword_matches * 0.15
  let objects := entities.countP (fun e => e.type == EntityType.object)
  let score := score +
    (if objects > 2 then (0.4 : ℚ) else if objects > 0 then 0.2 else 0)
  let class_relationship_types := ["inherits", "implements", "extends", "is_a",
    "composition", "aggregation"]
  let class_relationships :=
    relationships.filter (fun r => class_relationship_types.contains r.type)
  let score := score +
    (if class_relationships.length > 0 then (class_relationships.length : ℚ) * 0.2 else 0)
  let score := score +
    (if entities.length > 2 && entities.any (fun e => pyIn "class" (pyLower e.name))
     then (0.3 : ℚ) else 0)
  min score 1

/-- `TextParserService._calculate_process_score`. -/
def calculate_process_score (text : String) (entities : List Entity)
    (relationships : List Relationship) : ℚ :=
  let text_lower := pyLower text
  let process_keywords := ["process", "workflow", "procedure", "step", "task",
    "activity", "business process", "operation", "function", "action", "execute",
    "perform", "complete", "start", "end", "begin", "finish", "decision",
    "condition", "branch", "loop", "iteration", "approval", "review",
    "validation", "verification"]
  let keyword_matches : ℚ := (process_keywords.countP (fun kw => pyIn kw text_lower) : ℕ)
  let score : ℚ := keyword_matches * 0.12
  let processes := entities.countP (fun e => e.type == EntityType.process)
  let score := score +
    (if processes > 2 then (0.5 : ℚ) else if processes > 0 then 0.3 else 0)
  let events := entities.countP (fun e => e.type == EntityType.event)
  let score := score + (if events > 0 then (events : ℚ) * 0.15 else 0)
  let process_relationship_types := ["triggers", "follows", "precedes", "leads_to", "causes"]
  let process_relationships :=
    relationships.filter (fun r => process_relationship_types.contains r.type)
  let score := score +
    (if process_relationships.length > 0 then (process_relationships.length : ℚ) * 0.15 else 0)
  let sequential_words := ["step", "phase", "stage", "first", "second", "third",
    "next", "then", "finally"]
  let sequential_matches : ℚ := (sequential_words.countP (fun w => pyIn w text_lower) : ℕ)
  let score := score + sequential_matches * 0.08
  min score 1

/-- `TextParserService._calculate_flowchart_score`. -/
def calculate_flowchart_score (text : String) (entities : List Entity)
    (relationships : List Relationship) : ℚ :=
  let text_lower := pyLower text
  let score : ℚ := 0.3
  let flowchart_keywords := ["flow", "chart", "diagram", "logic", "algorithm",
    "decision", "condition", "if", "else", "loop", "while", "for", "branch",
    "path", "route", "direction", "control flow"]
  let keyword_matches : ℚ := (flowchart_keywords.countP (fun kw => pyIn kw text_lower) : ℕ)
  let score := score + keyword_matches * 0.1
  let flow_relationship_types := ["flows_to", "leads_to", "goes_to", "proceeds_to"]
  let flow_relationships :=
    relationships.filter (fun r => flow_relationship_types.contains r.type)
  let score := score +
    (if flow_relationships.length > 0 then (flow_relationships.length : ℚ) * 0.1 else 0)
  let unique_types := (entities.map (fun e => e.type)).dedup.length
  let score := score + (if unique_types > 2 then (0.2 : ℚ) else 0)
  let decision_words := ["if", "when", "unless", "decide", "choose", "select", "determine"]
  let decision_matches : ℚ := (decision_words.countP (fun w => pyIn w text_lower) : ℕ)
  let score := score + decision_matches * 0.05
  min score 1

/-- `TextParserService.get_diagram_type_suggestions`: the five scores in dict
insertion order, then Python's stable `sorted(..., key=score, reverse=True)`
(modelled by `List.insertionSort`, which is also stable). -/
def get_diagram_type_suggestions (text : String) (entities : List Entity)
    (relationships : List Relationship) : List (String × ℚ) :=
  let scores : List (String × ℚ) := [
    ("erd", calculate_erd_score text entities relationships),
    ("sequence", calculate_sequence_score text entities relationships),
    ("class", calculate_class_score text entities relationships),
    ("process", calculate_process_score text entities relationships),
    ("flowchart", calculate_flowchart_score text entities relationships)]
  scores.insertionSort (fun a b => b.2 ≤ a.2)

/-- Python `max(items, key=...)`: the first item with maximal key. -/
def pyMaxBySnd (head : DiagramType × ℚ) (rest : List (DiagramType × ℚ)) :
    DiagramType × ℚ :=
  rest.foldl (fun acc x => if acc.2 < x.2 then x else acc) head

/-- `TextParserService.determine_diagram_type`. -/
def determine_diagram_type (text : String) (entities : List Entity)
    (relationships : List Relationship) : DiagramType :=
  let best := pyMaxBySnd
    (DiagramType.erd, calculate_erd_score text entities relationships)
    [(DiagramType.sequence, calculate_sequence_score text entities relationships),
     (DiagramType.class_, calculate_class_score text entities relationships),
     (DiagramType.process, calculate_process_score text entities relationships),
     (DiagramType.flowchart, calculate_flowchart_score text entities relationships)]
  if best.2 < 0.3 then DiagramType.flowchart else best.1

/-! ### Parser confidence (`_calculate_confidence`) -/

/-- Python `round()` to an integer: round-half-to-even, on exact rationals.
(The binary-float artifacts of CPython's `round` are out of scope.) -/
def roundHalfEven (q : ℚ) : ℤ :=
  let f := ⌊q⌋
  let frac := q - f
  if frac < 1/2 then f
  else if 1/2 < frac then f + 1
  else if f % 2 = 0 then f else f + 1

/-- Python `round(q, 2)`. -/
def pyRound2 (q : ℚ) : ℚ := (roundHalfEven (100 * q) : ℚ) / 100

/-- `TextParserService._calculate_confidence`. -/
def calculate_confidence (entities : List Entity)
    (relationships : List Relationship) : ℚ :=
  if entities.isEmpty then 0
  else
    let entity_confidence :=
      (entities.map (fun e => e.confidence)).sum / (entities.length : ℚ)
    let relationship_bonus := min ((relationships.length : ℚ) * 0.1) 0.3
    let total_confidence := min (entity_confidence + relationship_bonus) 1
    pyRound2 total_confidence

/-! ### `parse_text`

spaCy-dependent extraction is abstracted: `extract_entities` stands for
`self.extract_entities(self.nlp(text))` and `identify_relationships` for
`self.identify_relationships(text, entities)`. The empty-input branch and the
assembly of `ParsedContent` are embedded from the source. Python's guard
`not text or not text.strip()` is equivalent to `text.strip() == ""`. -/

/-- `TextParserService.parse_text`. -/
def parse_text (extract_entities : String → List Entity)
    (identify_relationships : String → List Entity → List Relationship)
    (text : String) : ParsedContent :=
  if pyStrip text == "" then
    { entities := []
      relationships := []
      suggested_diagram_type := DiagramType.flowchart
      diagram_type_suggestions :=
        [("flowchart", 0.3), ("erd", 0.0), ("sequence", 0.0),
         ("class", 0.0), ("process", 0.0)]
      confidence := 0.0
      raw_text := text }
  else
    let entities := extract_entities text
    let relationships := identify_relationships text entities
    { entities := entities
      relationships := relationships
      suggested_diagram_type := determine_diagram_type text entities relationships
      diagram_type_suggestions := get_diagram_type_suggestions text entities relationships
      confidence := calculate_confidence entities relationships
      raw_text := text }

/-! ### Diagram-engine data model (`diagram_engine.py`) -/

/-- `Position` dataclass (floats as rationals). -/
structure Position where
  x : ℚ
  y : ℚ
deriving DecidableEq, Repr

/-- `Node` dataclass. -/
structure Node where
  id : String
  label : String
  shape : String
  entity_type : String
  properties : List (String × String)
  position : Option Position := none
deriving DecidableEq, Repr

/-- `Edge` dataclass. -/
structure Edge where
  source_id : String
  target_id : String
  label : String
  arrow_type : String
  relationship_type : String
deriving DecidableEq, Repr

/-- `DiagramData` dataclass (`mermaid_syntax` is called `mermaid` here). -/
structure DiagramData where
  diagram_type : DiagramType
  mermaid : String
  nodes : List Node
  edges : List Edge
  layout_config : List (String × String)
  metadata : List (String × String)
deriving DecidableEq, Repr

/-- `ValidationSeverity` enum. -/
inductive ValidationSeverity
  | error
  | warning
  | info
deriving DecidableEq, Repr

/-- `ValidationIssue` dataclass. Dict-valued details are flattened to string
lists (scalar detail values become singleton lists). -/
structure ValidationIssue where
  severity : ValidationSeverity
  code : String
  message : String
  details : List (String × List String) := []
  suggested_fix : Option String := none
deriving DecidableEq, Repr

/-- `ValidationResult` dataclass; the `Union[str, int, float]` metadata values
are all numeric in `validate_diagram_comprehensive`, hence `ℚ`. -/
structure ValidationResult where
  is_valid : Bool
  issues : List ValidationIssue
  warnings : List ValidationIssue
  metadata : List (String × ℚ)
deriving DecidableEq, Repr

/-- The two exception kinds of the engine: `DiagramGenerationError`
(message, stage, details) and `DiagramValidationError` (message, result). -/
inductive EngineError
  | generation (message stage : String) (details : List (String × String))
  | validation (message : String) (result : ValidationResult)
deriving DecidableEq, Repr

/-- The per-call mutable fields of `DiagramEngine`
(`self.node_counter`, `self.node_id_map`). -/
structure EngineState where
  node_counter : Nat
  node_id_map : List (String × String)
deriving DecidableEq, Repr

/-- The float math library used by the layouts: `math.pi`, `math.cos`,
`math.sin`, `math.sqrt` all consume and produce floats (exact rationals), and
the algorithms use no arithmetic facts about them, so they are an oracle. -/
structure MathOracle where
  pi : ℚ
  cos : ℚ → ℚ
  sin : ℚ → ℚ
  sqrt : ℚ → ℚ

/-- Association-list lookup with default: Python `dict.get(k, d)`. -/
def dictGetD (m : List (String × String)) (k d : String) : String :=
  match m.find? (fun p => p.1 == k) with
  | some p => p.2
  | none => d

/-- `self.entity_shape_map` (values of the `MermaidShapes` members). -/
def entity_shape_map : List (String × String) :=
  [("object", "rect"), ("process", "round"), ("actor", "circle"),
   ("data", "cylinder"), ("system", "hexagon"), ("event", "rhombus")]

/-- `self.relationship_arrow_map`. -/
def relationship_arrow_map : List (String × String) :=
  [("creates", "-->"), ("uses", "-.->"), ("contains", "==>"),
   ("inherits", "---|>"), ("depends_on", "..>"), ("flows_to", "-->"),
   ("triggers", "==>"), ("sends", "-.->"), ("receives", "<-.-"),
   ("manages", "==>"), ("processes", "-->"), ("stores", "-.->"),
   ("accesses", "..>")]

/-- The numeric entries of `self.layout_config` used by the layouts. -/
def layout_margin : ℚ := 50

/-- `self.layout_config["horizontal_spacing"]`. -/
def layout_horizontal_spacing : ℚ := 200

/-- `self.layout_config["vertical_spacing"]`. -/
def layout_vertical_spacing : ℚ := 100

/-- `DiagramEngine._reset_counters` (returns the fresh per-call state). -/
def reset_counters (_s : EngineState) : EngineState :=
  { node_counter := 0, node_id_map := [] }

/-- The "clean ID" built inside `_get_or_create_node_id`:
`re.sub(r"[^a-zA-Z0-9]", "", entity_name.replace(" ", "_"))`. -/
def cleanIdOf (entity_name : String) : String :=
  String.mk ((pyReplaceChar entity_name ' ' '_').data.filter Char.isAlphanum)

/-- `DiagramEngine._get_or_create_node_id`. -/
def get_or_create_node_id (s : EngineState) (entity_name : String) :
    String × EngineState :=
  match s.node_id_map.find? (fun p => p.1 == entity_name) with
  | some p => (p.2, s)
  | none =>
    let counter := s.node_counter + 1
    let node_id := cleanIdOf entity_name ++ "_" ++ toString counter
    (node_id, { node_counter := counter,
                node_id_map := s.node_id_map ++ [(entity_name, node_id)] })

/-- `DiagramEngine._clean_label`. -/
def clean_label (label : String) : String :=
  let cleaned := collapseWs (pyStrip label).data
  if cleaned.length > 30 then String.mk (cleaned.take 27 ++ "...".data)
  else String.mk cleaned

/-- `DiagramEngine._generate_nodes` (the Python `for` loop as recursion over
the entity list, threading the id state). -/
def generate_nodes (s : EngineState) : List Entity → List Node × EngineState
  | [] => ([], s)
  | entity :: rest =>
    let r := get_or_create_node_id s entity.name
    let shape := dictGetD entity_shape_map entity.type.value "rect"
    let node : Node :=
      { id := r.1
        label := clean_label entity.name
        shape := shape
        entity_type := entity.type.value
        properties := entity.properties
        position := none }
    let rec_rest := generate_nodes r.2 rest
    (node :: rec_rest.1, rec_rest.2)

/-- `DiagramEngine._generate_edges`. -/
def generate_edges (s : EngineState) : List Relationship → List Edge × EngineState
  | [] => ([], s)
  | relationship :: rest =>
    let rs := get_or_create_node_id s relationship.source
    let rt := get_or_create_node_id rs.2 relationship.target
    let arrow_type := dictGetD relationship_arrow_map relationship.type "-->"
    let label := if relationship.label != "" then clean_label relationship.label else ""
    let edge : Edge :=
      { source_id := rs.1
        target_id := rt.1
        label := label
        arrow_type := arrow_type
        relationship_type := relationship.type }
    let rec_rest := generate_edges rt.2 rest
    (edge :: rec_rest.1, rec_rest.2)

/-! ### Mermaid syntax generation (`_generate_*_syntax`) -/

/-- `DiagramEngine._get_shape_syntax` (literal braces written `\x7b`/`\x7d`). -/
def get_shape_syntax (shape label : String) : String :=
  let shape_map : List (String × String) := [
    ("rect", "[" ++ label ++ "]"),
    ("round", "(" ++ label ++ ")"),
    ("circle", "((" ++ label ++ "))"),
    ("rhombus", "\x7b" ++ label ++ "\x7d"),
    ("hexagon", "\x7b\x7b" ++ label ++ "\x7d\x7d"),
    ("cylinder", "[(" ++ label ++ ")]"),
    ("cloud", ">>" ++ label ++ "]")]
  dictGetD shape_map shape ("[" ++ label ++ "]")

/-- `DiagramEngine._generate_flowchart_styling`. -/
def generate_flowchart_styling (nodes : List Node) : List String :=
  let color_map : List (String × String) :=
    [("object", "#e1f5fe"), ("process", "#f3e5f5"), ("actor", "#e8f5e8"),
     ("data", "#fff3e0"), ("system", "#fce4ec"), ("event", "#f1f8e9")]
  nodes.foldl (fun styling node =>
    let color := dictGetD color_map node.entity_type "#f5f5f5"
    styling ++ ["    classDef " ++ node.entity_type ++ "Style fill:" ++ color,
                "    class " ++ node.id ++ " " ++ node.entity_type ++ "Style"]) []

/-- `DiagramEngine._generate_process_styling`. -/
def generate_process_styling (nodes : List Node) : List String :=
  let color_map : List (String × String) :=
    [("process", "#bbdefb"), ("data", "#ffccbc"), ("system", "#c8e6c9")]
  nodes.foldl (fun styling node =>
    match color_map.find? (fun p => p.1 == node.entity_type) with
    | some p =>
      styling ++ ["    classDef " ++ node.entity_type ++ "Style fill:" ++ p.2,
                  "    class " ++ node.id ++ " " ++ node.entity_type ++ "Style"]
    | none => styling) []

/-- `DiagramEngine._generate_flowchart_syntax`. -/
def generate_flowchart_syntax (nodes : List Node) (edges : List Edge) : String :=
  let lines := ["flowchart TD"]
  let lines := lines ++ nodes.map (fun node =>
    "    " ++ node.id ++ get_shape_syntax node.shape node.label)
  let lines := lines ++ edges.map (fun edge =>
    if edge.label != "" then
      "    " ++ edge.source_id ++ " " ++ edge.arrow_type ++ "|" ++ edge.label ++
        "| " ++ edge.target_id
    else
      "    " ++ edge.source_id ++ " " ++ edge.arrow_type ++ " " ++ edge.target_id)
  let lines := lines ++ generate_flowchart_styling nodes
  String.intercalate "\n" lines

/-- `DiagramEngine._convert_to_erd_relationship`. -/
def convert_to_erd_relationship (relationship_type : String) : String :=
  dictGetD [("contains", "||--o\x7b"), ("uses", "\x7do--||"),
            ("creates", "||--||"), ("depends_on", "\x7do..o\x7b")]
    relationship_type "||--||"

/-- `DiagramEngine._convert_to_class_relationship`. -/
def convert_to_class_relationship (relationship_type : String) : String :=
  dictGetD [("inherits", "<|--"), ("uses", "<--"), ("contains", "*--"),
            ("depends_on", "<..")]
    relationship_type "--"

/-- `DiagramEngine._generate_erd_syntax`. -/
def generate_erd_syntax (nodes : List Node) (edges : List Edge) : String :=
  let lines := ["erDiagram"]
  let entities := nodes.filter (fun node =>
    node.entity_type == "object" || node.entity_type == "data")
  let lines := lines ++ entities.foldl (fun acc node =>
    acc ++ ["    " ++ node.id ++ " \x7b"] ++
    (if node.properties.isEmpty then ["        string id"]
     else node.properties.map (fun p => "        string " ++ p.1)) ++
    ["    \x7d"]) []
  let lines := lines ++ edges.map (fun edge =>
    let relationship_type := convert_to_erd_relationship edge.relationship_type
    if edge.label != "" then
      "    " ++ edge.source_id ++ " " ++ relationship_type ++ " " ++
        edge.target_id ++ " : \"" ++ edge.label ++ "\""
    else
      "    " ++ edge.source_id ++ " " ++ relationship_type ++ " " ++
        edge.target_id ++ " : \"\"")
  String.intercalate "\n" lines

/-- `DiagramEngine._generate_sequence_syntax`. -/
def generate_sequence_syntax (nodes : List Node) (edges : List Edge) : String :=
  let lines := ["sequenceDiagram"]
  let actors := nodes.filter (fun node =>
    node.entity_type == "actor" || node.entity_type == "system")
  let lines := lines ++ actors.map (fun actor =>
    "    participant " ++ actor.id ++ " as " ++ actor.label)
  let lines := lines ++ edges.map (fun edge =>
    if edge.label != "" then
      "    " ++ edge.source_id ++ "->>+" ++ edge.target_id ++ ": " ++ edge.label
    else
      "    " ++ edge.source_id ++ "->>+" ++ edge.target_id ++ ": interaction")
  String.intercalate "\n" lines

/-- `DiagramEngine._generate_class_syntax`. -/
def generate_class_syntax (nodes : List Node) (edges : List Edge) : String :=
  let lines := ["classDiagram"]
  let lines := lines ++ nodes.foldl (fun acc node =>
    acc ++ ["    class " ++ node.id ++ " \x7b"] ++
    node.properties.map (fun p => "        +" ++ p.1 ++ " : " ++ p.2) ++
    ["    \x7d"]) []
  let lines := lines ++ edges.map (fun edge =>
    "    " ++ edge.source_id ++ " " ++
      convert_to_class_relationship edge.relationship_type ++ " " ++ edge.target_id)
  String.intercalate "\n" lines

/-- `DiagramEngine._generate_process_syntax`. -/
def generate_process_syntax (nodes : List Node) (edges : List Edge) : String :=
  let lines := ["flowchart LR"]
  let lines := lines ++ nodes.map (fun node =>
    if node.entity_type == "process" then "    " ++ node.id ++ "[" ++ node.label ++ "]"
    else if node.entity_type == "data" then "    " ++ node.id ++ "[(" ++ node.label ++ ")]"
    else "    " ++ node.id ++ "[" ++ node.label ++ "]")
  let lines := lines ++ edges.map (fun edge =>
    if edge.label != "" then
      "    " ++ edge.source_id ++ " --> |" ++ edge.label ++ "| " ++ edge.target_id
    else
      "    " ++ edge.source_id ++ " --> " ++ edge.target_id)
  let lines := lines ++ generate_process_styling nodes
  String.intercalate "\n" lines

/-- `DiagramEngine._generate_mermaid_syntax` (the five enum members are
exhaustive, so the source's final `else`-to-flowchart branch is dead). -/
def generate_mermaid_syntax (diagram_type : DiagramType) (nodes : List Node)
    (edges : List Edge) : String :=
  match diagram_type with
  | .flowchart => generate_flowchart_syntax nodes edges
  | .erd => generate_erd_syntax nodes edges
  | .sequence => generate_sequence_syntax nodes edges
  | .class_ => generate_class_syntax nodes edges
  | .process => generate_process_syntax nodes edges

/-- `DiagramEngine._generate_layout_config` (dict updates on `direction`
keep insertion order). -/
def generate_layout_config (diagram_type : DiagramType) : List (String × String) :=
  let direction := match diagram_type with
    | .sequence => "LR"
    | .process => "LR"
    | .erd => "TB"
    | _ => "TD"
  [("direction", direction), ("theme", "default"), ("background", "white")]

/-! ### Layout algorithms (`_apply_*_layout`, `_assign_levels_bfs`) -/

/-- `DiagramEngine._build_adjacency_list`: dict `{node.id: [] for node in nodes}`
(duplicate ids collapse, as in a dict comprehension), then targets appended to
their source's entry when the source is a key. -/
def build_adjacency_list (nodes : List Node) (edges : List Edge) :
    List (String × List String) :=
  let adjacency := ((nodes.map (fun n => n.id)).dedup).map
    (fun i => (i, ([] : List String)))
  edges.foldl (fun adj edge =>
    adj.map (fun p =>
      if p.1 == edge.source_id then (p.1, p.2 ++ [edge.target_id]) else p)) adjacency

/-- `adjacency.get(node_id, [])`. -/
def adjGet (adj : List (String × List String)) (k : String) : List String :=
  match adj.find? (fun p => p.1 == k) with
  | some p => p.2
  | none => []

/-- Total number of adjacency targets (termination measure ingredient). -/
def adjTotal (adj : List (String × List String)) : Nat :=
  (adj.map (fun p => p.2.length)).sum

/-- Number of adjacency keys not yet visited (termination measure ingredient). -/
def unvisitedKeys (adj : List (String × List String)) (visited : List String) : Nat :=
  (adj.map Prod.fst).countP (fun k => !(visited.contains k))

theorem adjGet_length_le (adj : List (String × List String)) (k : String) :
    (adjGet adj k).length ≤ adjTotal adj := by
  induction adj with
  | nil => simp [adjGet, adjTotal]
  | cons p rest ih =>
    by_cases h : p.1 == k
    · simp [adjGet, adjTotal, List.find?, h]
    · have h' : (p.1 == k) = false := by simpa using h
      simp only [adjGet, adjTotal, List.find?, h', List.map_cons, List.sum_cons] at *
      omega

theorem contains_append_singleton (visited : List String) (nid k : String) :
    (visited ++ [nid]).contains k = (visited.contains k || k == nid) := by
  simp only [List.elem_eq_mem, List.mem_append, List.mem_singleton, Bool.decide_or]
  rfl

theorem not_mem_of_contains_eq_false {l : List String} {a : String}
    (h : l.contains a = false) : a ∉ l := by
  intro hmem
  rw [show l.contains a = decide (a ∈ l) from List.elem_eq_mem a l] at h
  simp [hmem] at h

theorem mem_of_contains_eq_true {l : List String} {a : String}
    (h : l.contains a = true) : a ∈ l := by
  rw [show l.contains a = decide (a ∈ l) from List.elem_eq_mem a l] at h
  exact of_decide_eq_true h

theorem adjGet_eq_nil_of_not_key (adj : List (String × List String)) (k : String)
    (h : (adj.map Prod.fst).contains k = false) : adjGet adj k = [] := by
  induction adj with
  | nil => rfl
  | cons p rest ih =>
    have h' := not_mem_of_contains_eq_false h
    simp only [List.map_cons, List.mem_cons, not_or] at h'
    have hk : (p.1 == k) = false := by
      rw [beq_eq_false_iff_ne]
      exact fun e => h'.1 e.symm
    have hstep : adjGet (p :: rest) k = adjGet rest k := by
      unfold adjGet
      rw [List.find?_cons_of_neg]
      simp [hk]
    rw [hstep]
    apply ih
    rw [show (rest.map Prod.fst).contains k = decide (k ∈ rest.map Prod.fst) from
      List.elem_eq_mem k _]
    simpa using h'.2

theorem countP_lt_of_mem {α : Type} (l : List α) (p q : α → Bool)
    (hpq : ∀ a ∈ l, p a = true → q a = true)
    (x : α) (hx : x ∈ l) (hpx : p x = false) (hqx : q x = true) :
    l.countP p < l.countP q := by
  induction l with
  | nil => simp at hx
  | cons a l ih =>
    rcases List.mem_cons.mp hx with rfl | hxl
    · have hmono : l.countP p ≤ l.countP q :=
        List.countP_mono_left (fun b hb => hpq b (List.mem_cons_of_mem _ hb))
      simp [List.countP_cons, hpx, hqx]
      omega
    · have hstep := ih (fun b hb => hpq b (List.mem_cons_of_mem _ hb)) hxl
      have hhead : (if p a = true then 1 else 0) ≤ (if q a = true then 1 else 0) := by
        by_cases hpa : p a = true
        · simp [hpa, hpq a (List.mem_cons_self a l) hpa]
        · simp [hpa]
      simp only [List.countP_cons]
      omega

theorem unvisitedKeys_append_le (adj : List (String × List String))
    (visited : List String) (nid : String) :
    unvisitedKeys adj (visited ++ [nid]) ≤ unvisitedKeys adj visited := by
  unfold unvisitedKeys
  apply List.countP_mono_left
  intro a _ h
  rw [contains_append_singleton] at h
  simp only [Bool.not_eq_true', Bool.or_eq_false_iff] at h
  simp only [Bool.not_eq_true']
  exact h.1

theorem unvisitedKeys_append_lt (adj : List (String × List String))
    (visited : List String) (nid : String)
    (hmem : (adj.map Prod.fst).contains nid = true)
    (hnv : visited.contains nid = false) :
    unvisitedKeys adj (visited ++ [nid]) < unvisitedKeys adj visited := by
  unfold unvisitedKeys
  refine countP_lt_of_mem _ _ _ ?_ nid ?_ ?_ ?_
  · intro a _ h
    rw [contains_append_singleton] at h
    simp only [Bool.not_eq_true', Bool.or_eq_false_iff] at h
    simp only [Bool.not_eq_true']
    exact h.1
  · exact mem_of_contains_eq_true hmem
  · rw [contains_append_singleton]
    simp
  · simp only [Bool.not_eq_true']
    exact hnv

/-- `DiagramEngine._assign_levels_bfs`, inner `while queue:` loop. The
termination measure combines the queue length with the number of unvisited
adjacency keys: popping a visited node shortens the queue, and visiting a node
either consumes an adjacency key (enqueuing at most `adjTotal adj` children)
or, when the node is not a key, enqueues nothing. -/
def assign_levels_bfs_loop (adj : List (String × List String)) :
    List (String × Nat) → List String → List (String × Nat) → List (String × Nat)
  | [], _, levels => levels
  | (node_id, level) :: rest, visited, levels =>
    if h : visited.contains node_id then
      assign_levels_bfs_loop adj rest visited levels
    else
      let visited' := visited ++ [node_id]
      let children := (adjGet adj node_id).filter (fun c => !(visited'.contains c))
      assign_levels_bfs_loop adj (rest ++ children.map (fun c => (c, level + 1)))
        visited' (levels ++ [(node_id, level)])
termination_by queue visited _ =>
  queue.length + (1 + adjTotal adj) * unvisitedKeys adj visited
decreasing_by
· simp only [List.length_cons]
  omega
· simp only [List.length_append, List.length_map, List.length_cons]
  by_cases hkey : (adj.map Prod.fst).contains node_id
  · have h1 : (List.filter (fun c => !((visited ++ [node_id]).contains c))
        (adjGet adj node_id)).length ≤ adjTotal adj :=
      le_trans (List.length_filter_le _ _) (adjGet_length_le adj node_id)
    have h2 : unvisitedKeys adj (visited ++ [node_id]) < unvisitedKeys adj visited :=
      unvisitedKeys_append_lt adj visited node_id hkey (by simpa using h)
    have h5 : (1 + adjTotal adj) * unvisitedKeys adj (visited ++ [node_id]) +
        (1 + adjTotal adj) ≤ (1 + adjTotal adj) * unvisitedKeys adj visited := by
      calc (1 + adjTotal adj) * unvisitedKeys adj (visited ++ [node_id]) +
            (1 + adjTotal adj)
          = (1 + adjTotal adj) * (unvisitedKeys adj (visited ++ [node_id]) + 1) := by
            ring
        _ ≤ (1 + adjTotal adj) * unvisitedKeys adj visited :=
            Nat.mul_le_mul_left _ h2
    omega
  · have hnil : adjGet adj node_id = [] :=
      adjGet_eq_nil_of_not_key adj node_id (by simpa using hkey)
    have h1 : (List.filter (fun c => !((visited ++ [node_id]).contains c))
        (adjGet adj node_id)).length = 0 := by
      simp [hnil]
    have h2 : unvisitedKeys adj (visited ++ [node_id]) ≤ unvisitedKeys adj visited :=
      unvisitedKeys_append_le adj visited node_id
    have h3 : (1 + adjTotal adj) * unvisitedKeys adj (visited ++ [node_id]) ≤
        (1 + adjTotal adj) * unvisitedKeys adj visited :=
      Nat.mul_le_mul_left _ h2
    omega

/-- `levels.get(node_id, 0)`. -/
def levelGet (levels : List (String × Nat)) (node_id : String) : Nat :=
  match levels.find? (fun p => p.1 == node_id) with
  | some p => p.2
  | none => 0

/-- `DiagramEngine._assign_levels_bfs` (queue seeded with the roots at level 0,
empty visited set and empty level map). -/
def assign_levels_bfs (adj : List (String × List String)) (root_nodes : List Node) :
    List (String × Nat) :=
  assign_levels_bfs_loop adj (root_nodes.map (fun n => (n.id, 0))) [] []

/-- `DiagramEngine._find_root_nodes`. -/
def find_root_nodes (nodes : List Node) (edges : List Edge) : List Node :=
  let incoming := edges.map (fun e => e.target_id)
  nodes.filter (fun node => !(incoming.contains node.id))

/-- `DiagramEngine._apply_hierarchical_layout`. `nodes[0]` on an empty node
list would raise `IndexError`; the engine only calls this with a non-empty
list (guarded in `_apply_auto_layout`). `nodes_at_level.index(node)` always
succeeds because every node satisfies its own level filter. -/
def apply_hierarchical_layout (nodes : List Node) (edges : List Edge) :
    Except String (List Node) :=
  let adjacency := build_adjacency_list nodes edges
  let roots0 := find_root_nodes nodes edges
  let root_nodes := if roots0.isEmpty then nodes.take 1 else roots0
  if root_nodes.isEmpty then .error "IndexError: list index out of range"
  else
    let levels := assign_levels_bfs adjacency root_nodes
    .ok (nodes.map (fun node =>
      let level := levelGet levels node.id
      let nodes_at_level := nodes.filter (fun n => levelGet levels n.id == level)
      let position_in_level := nodes_at_level.indexOf node
      { node with position := some (
          { x := layout_margin + (position_in_level : ℚ) * layout_horizontal_spacing,
            y := layout_margin + (level : ℚ) * layout_vertical_spacing }) }))

/-- `DiagramEngine._apply_sequence_layout`. -/
def apply_sequence_layout (nodes : List Node) (_edges : List Edge) : List Node :=
  let actors := nodes.filter (fun node =>
    node.entity_type == "actor" || node.entity_type == "system")
  let other_nodes := nodes.filter (fun node =>
    !(node.entity_type == "actor" || node.entity_type == "system"))
  actors.mapIdx (fun i actor =>
    { actor with position := some (
        { x := layout_margin + (i : ℚ) * layout_horizontal_spacing,
          y := layout_margin }) }) ++
  other_nodes.mapIdx (fun i node =>
    { node with position := some (
        { x := layout_margin + (i : ℚ) * layout_horizontal_spacing,
          y := layout_margin + layout_vertical_spacing }) })

/-- `DiagramEngine._apply_process_layout` (hierarchical with the axes swapped). -/
def apply_process_layout (nodes : List Node) (edges : List Edge) :
    Except String (List Node) :=
  let adjacency := build_adjacency_list nodes edges
  let roots0 := find_root_nodes nodes edges
  let root_nodes := if roots0.isEmpty then nodes.take 1 else roots0
  if root_nodes.isEmpty then .error "IndexError: list index out of range"
  else
    let levels := assign_levels_bfs adjacency root_nodes
    .ok (nodes.map (fun node =>
      let level := levelGet levels node.id
      let nodes_at_level := nodes.filter (fun n => levelGet levels n.id == level)
      let position_in_level := nodes_at_level.indexOf node
      { node with position := some (
          { x := layout_margin + (level : ℚ) * layout_horizontal_spacing,
            y := layout_margin + (position_in_level : ℚ) * layout_vertical_spacing }) }))

/-- `math.ceil(math.sqrt(n))` on a natural number. -/
def pyCeilSqrt (n : Nat) : Nat :=
  let r := Nat.sqrt n
  if r * r == n then r else r + 1

/-- `DiagramEngine._apply_grid_layout`. -/
def apply_grid_layout (nodes : List Node) : List Node :=
  let grid_size := pyCeilSqrt nodes.length
  nodes.mapIdx (fun i node =>
    let row := i / grid_size
    let col := i % grid_size
    { node with position := some (
        { x := layout_margin + (col : ℚ) * layout_horizontal_spacing,
          y := layout_margin + (row : ℚ) * layout_vertical_spacing }) })

/-- `node.position` read by the force loop. Every node entering the loop was
seeded with a position just above, so the `none` default is never used (the
Python code reads `node.position.x` directly). -/
def posOf (n : Node) : Position := n.position.getD { x := 0, y := 0 }

/-- Accumulate a force contribution on the dict entry of one node id
(`forces[node.id].x += fx; forces[node.id].y += fy`). -/
def forcesAdd (forces : List (String × Position)) (id : String) (fx fy : ℚ) :
    List (String × Position) :=
  forces.map (fun p =>
    if p.1 == id then (p.1, { x := p.2.x + fx, y := p.2.y + fy }) else p)

/-- The attractive-force pass over the edges. `next(n for n in positioned_nodes
if n.id == edge.source_id)` raises `StopIteration` when an edge endpoint is not
among the nodes; that exception propagates out of the layout stage. -/
def attractStep (o : MathOracle) (positioned_nodes : List Node) :
    List Edge → List (String × Position) → Except String (List (String × Position))
  | [], fs => .ok fs
  | edge :: rest, fs =>
    match positioned_nodes.find? (fun n => n.id == edge.source_id),
          positioned_nodes.find? (fun n => n.id == edge.target_id) with
    | some node1, some node2 =>
      let dx := (posOf node2).x - (posOf node1).x
      let dy := (posOf node2).y - (posOf node1).y
      let distance := o.sqrt (dx * dx + dy * dy)
      if distance > 0 then
        let force := distance * 0.01
        let fs1 := forcesAdd fs node1.id (force * dx / distance) (force * dy / distance)
        let fs2 := forcesAdd fs1 node2.id (-(force * dx / distance))
          (-(force * dy / distance))
        attractStep o positioned_nodes rest fs2
      else attractStep o positioned_nodes rest fs
    | _, _ => .error "StopIteration"

/-- One iteration of the force-directed loop: zeroed force dict, pairwise
inverse-square repulsion, linear attraction along edges, then positions updated
with damping 0.9. -/
def forceIteration (o : MathOracle) (edges : List Edge)
    (positioned_nodes : List Node) : Except String (List Node) :=
  let forces0 : List (String × Position) :=
    ((positioned_nodes.map (fun n => n.id)).dedup).map
      (fun i => (i, { x := 0, y := 0 }))
  let forces1 := (positioned_nodes.enum).foldl (fun fs p1 =>
    (positioned_nodes.enum).foldl (fun fs p2 =>
      if p1.1 == p2.1 then fs
      else
        let dx := (posOf p1.2).x - (posOf p2.2).x
        let dy := (posOf p1.2).y - (posOf p2.2).y
        let distance := o.sqrt (dx * dx + dy * dy)
        if distance > 0 then
          let force := 1000 / (distance * distance)
          forcesAdd fs p1.2.id (force * dx / distance) (force * dy / distance)
        else fs) fs) forces0
  match attractStep o positioned_nodes edges forces1 with
  | .error e => .error e
  | .ok forces2 =>
    .ok (positioned_nodes.map (fun node =>
      let f := match forces2.find? (fun p => p.1 == node.id) with
        | some p => p.2
        | none => { x := 0, y := 0 }
      { node with position := some (
          { x := (posOf node).x + f.x * 0.9, y := (posOf node).y + f.y * 0.9 }) }))

/-- The `for iteration in range(50)` loop. -/
def forceIterations (o : MathOracle) (edges : List Edge) :
    Nat → List Node → Except String (List Node)
  | 0, ns => .ok ns
  | k + 1, ns =>
    match forceIteration o edges ns with
    | .error e => .error e
    | .ok ns' => forceIterations o edges k ns'

/-- `DiagramEngine._apply_force_directed_layout`. -/
def apply_force_directed_layout (o : MathOracle) (nodes : List Node)
    (edges : List Edge) : Except String (List Node) :=
  if nodes.length ≤ 1 then .ok (apply_grid_layout nodes)
  else
    let seeded := nodes.mapIdx (fun i node =>
      let angle := 2 * o.pi * (i : ℚ) / (nodes.length : ℚ)
      let radius : ℚ := 100
      { node with position := some (
          { x := layout_margin + 200 + radius * o.cos angle,
            y := layout_margin + 200 + radius * o.sin angle }) })
    forceIterations o edges 50 seeded

/-- `DiagramEngine._apply_erd_layout`. -/
def apply_erd_layout (o : MathOracle) (nodes : List Node) (edges : List Edge) :
    Except String (List Node) :=
  apply_force_directed_layout o nodes edges

/-- `DiagramEngine._apply_class_layout`. -/
def apply_class_layout (nodes : List Node) (edges : List Edge) :
    Except String (List Node) :=
  apply_hierarchical_layout nodes edges

/-- `DiagramEngine._apply_auto_layout` (the five enum members are exhaustive,
so the source's grid-layout `else` branch is dead code). -/
def apply_auto_layout (o : MathOracle) (nodes : List Node) (edges : List Edge)
    (diagram_type : DiagramType) : Except String (List Node) :=
  if nodes.isEmpty then .ok nodes
  else match diagram_type with
    | .flowchart => apply_hierarchical_layout nodes edges
    | .sequence => .ok (apply_sequence_layout nodes edges)
    | .erd => apply_erd_layout o nodes edges
    | .class_ => apply_class_layout nodes edges
    | .process => apply_process_layout nodes edges

/-! ### Validation (`validate_diagram`, `validate_diagram_comprehensive`) -/

/-- The engine's mermaid-text validity check (`_validate_mermaid_` + `syntax`
in the Python). -/
def validate_mermaid_text (s : String) : Bool :=
  if pyStrip s == "" then false
  else
    let valid_declarations := ["flowchart", "graph", "sequenceDiagram",
      "classDiagram", "erDiagram", "gitgraph"]
    let first_line := pyStrip (firstLine s)
    valid_declarations.any (fun decl => pyStartsWith first_line decl)

/-- `DiagramEngine._validate_edge_references`. -/
def validate_edge_references (nodes : List Node) (edges : List Edge) : Bool :=
  let node_ids := nodes.map (fun n => n.id)
  edges.all (fun edge =>
    node_ids.contains edge.source_id && node_ids.contains edge.target_id)

/-- `DiagramEngine._find_orphaned_edges`. -/
def find_orphaned_edges (nodes : List Node) (edges : List Edge) : List Edge :=
  let node_ids := nodes.map (fun n => n.id)
  edges.filter (fun edge =>
    !(node_ids.contains edge.source_id && node_ids.contains edge.target_id))

/-- `DiagramEngine._find_overlapping_nodes` (pairs of positioned nodes within
50 units on both axes, reported as `"id1-id2"`). -/
def find_overlapping_nodes (nodes : List Node) : List String :=
  let positioned := nodes.filter (fun n => n.position.isSome)
  let rec pairs : List Node → List String
    | [] => []
    | n1 :: rest =>
      (rest.filter (fun n2 =>
        |((posOf n1).x - (posOf n2).x)| < 50 ∧ |((posOf n1).y - (posOf n2).y)| < 50)).map
        (fun n2 => n1.id ++ "-" ++ n2.id) ++ pairs rest
  pairs positioned

/-- `DiagramEngine._find_isolated_nodes`. -/
def find_isolated_nodes (nodes : List Node) (edges : List Edge) : List Node :=
  let connected := edges.foldl (fun acc e => acc ++ [e.source_id, e.target_id]) []
  nodes.filter (fun node => !(connected.contains node.id))

/-- `DiagramEngine._calculate_complexity_score`. -/
def calculate_complexity_score (dd : DiagramData) : ℚ :=
  let node_count := dd.nodes.length
  let edge_count := dd.edges.length
  if node_count == 0 then 0
  else
    let node_complexity := min ((node_count : ℚ) / 20) 1
    let edge_density := (edge_count : ℚ) / (max node_count 1 : ℕ)
    let edge_complexity := min (edge_density / 3) 1
    min (node_complexity * 0.6 + edge_complexity * 0.4) 1

/-- Result of `_validate_diagram_type_appropriateness`
(`{"is_appropriate": True}` or the reason/suggestion dict). -/
inductive TypeAppropriateness
  | appropriate
  | inappropriate (reason suggested_type : String)
deriving DecidableEq, Repr

/-- `DiagramEngine._validate_diagram_type_appropriateness`. -/
def validate_diagram_type_appropriateness (dd : DiagramData) : TypeAppropriateness :=
  let countType := fun (t : String) =>
    (dd.nodes.filter (fun n => n.entity_type == t)).length
  let total_entities := dd.nodes.length
  match dd.diagram_type with
  | .erd =>
    let data_entities := countType "data" + countType "object"
    if total_entities > 0 ∧ (data_entities : ℚ) / (total_entities : ℚ) < 0.5 then
      .inappropriate "ERD should primarily contain data entities" "flowchart"
    else .appropriate
  | .sequence =>
    let actor_entities := countType "actor" + countType "system"
    if total_entities > 0 ∧ (actor_entities : ℚ) / (total_entities : ℚ) < 0.3 then
      .inappropriate "Sequence diagrams should have actors or systems" "flowchart"
    else .appropriate
  | .process =>
    let process_entities := countType "process"
    if total_entities > 0 ∧ (process_entities : ℚ) / (total_entities : ℚ) < 0.3 then
      .inappropriate "Process diagrams should contain process entities" "flowchart"
    else .appropriate
  | _ => .appropriate

/-- `DiagramEngine.validate_diagram` (legacy boolean-only validator). -/
def validate_diagram (dd : DiagramData) : Bool × Bool × Bool × Bool × Bool :=
  let has_nodes := dd.nodes.length > 0
  let has_valid_syntax := validate_mermaid_text dd.mermaid
  let nodes_have_labels := dd.nodes.all (fun node => pyStrip node.label != "")
  let edges_reference_valid_nodes := validate_edge_references dd.nodes dd.edges
  let is_valid := has_nodes && has_valid_syntax && nodes_have_labels &&
    edges_reference_valid_nodes
  (has_nodes, has_valid_syntax, nodes_have_labels, edges_reference_valid_nodes,
    is_valid)

/-- `DiagramEngine.validate_diagram_comprehensive`. Issue and warning lists are
accumulated in source order; the metadata dict holds `complexity_score`
followed by the counters. -/
def validate_diagram_comprehensive (dd : DiagramData) : ValidationResult :=
  let issues0 : List ValidationIssue := []
  let issues1 := if dd.nodes.length == 0 then
      issues0 ++ [{ severity := .error, code := "NO_NODES",
                    message := "Diagram has no nodes",
                    suggested_fix :=
                      some "Ensure input text contains identifiable entities" }]
    else issues0
  let issues2 := if !validate_mermaid_text dd.mermaid then
      issues1 ++ [{ severity := .error, code := "INVALID_SYNTAX",
                    message := "Generated Mermaid syntax is invalid",
                    details := [("first_line",
                      [if dd.mermaid != "" then firstLine dd.mermaid else ""])],
                    suggested_fix :=
                      some "Check diagram type and syntax generation logic" }]
    else issues1
  let empty_label_nodes := dd.nodes.filter (fun node => pyStrip node.label == "")
  let issues3 := if !empty_label_nodes.isEmpty then
      issues2 ++ [{ severity := .error, code := "EMPTY_LABELS",
                    message := toString empty_label_nodes.length ++
                      " nodes have empty labels",
                    details := [("node_ids",
                      empty_label_nodes.map (fun n => n.id))],
                    suggested_fix :=
                      some "Ensure all entities have meaningful names" }]
    else issues2
  let issues4 := if !validate_edge_references dd.nodes dd.edges then
      let orphaned_edges := find_orphaned_edges dd.nodes dd.edges
      issues3 ++ [{ severity := .error, code := "ORPHANED_EDGES",
                    message := toString orphaned_edges.length ++
                      " edges reference non-existent nodes",
                    details := [("orphaned_edges",
                      orphaned_edges.map (fun e => e.source_id ++ "->" ++ e.target_id))],
                    suggested_fix :=
                      some "Ensure all relationships reference valid entities" }]
    else issues3
  let warnings0 : List ValidationIssue := []
  let unpositioned_nodes := dd.nodes.filter (fun node => node.position.isNone)
  let warnings1 := if !unpositioned_nodes.isEmpty then
      warnings0 ++ [{ severity := .warning, code := "UNPOSITIONED_NODES",
                      message := toString unpositioned_nodes.length ++
                        " nodes lack position information",
                      details := [("node_ids",
                        unpositioned_nodes.map (fun n => n.id))],
                      suggested_fix := some "Apply auto-layout to position nodes" }]
    else warnings0
  let overlapping_pairs := find_overlapping_nodes dd.nodes
  let warnings2 := if !overlapping_pairs.isEmpty then
      warnings1 ++ [{ severity := .warning, code := "OVERLAPPING_NODES",
                      message := toString overlapping_pairs.length ++
                        " pairs of nodes have overlapping positions",
                      details := [("overlapping_pairs", overlapping_pairs)],
                      suggested_fix :=
                        some "Adjust layout spacing or apply force-directed layout" }]
    else warnings1
  let complexity_score := calculate_complexity_score dd
  let warnings3 := if complexity_score > 0.8 then
      warnings2 ++ [{ severity := .warning, code := "HIGH_COMPLEXITY",
                      message :=
                        "Diagram has high complexity and may be difficult to read",
                      details := [("complexity_score", [toString complexity_score])],
                      suggested_fix := some
                        "Consider breaking into multiple diagrams or simplifying relationships" }]
    else warnings2
  let isolated_nodes := find_isolated_nodes dd.nodes dd.edges
  let warnings4 := if !isolated_nodes.isEmpty then
      warnings3 ++ [{ severity := .info, code := "ISOLATED_NODES",
                      message := toString isolated_nodes.length ++
                        " nodes have no connections",
                      details := [("isolated_nodes",
                        isolated_nodes.map (fun n => n.id))],
                      suggested_fix := some
                        "Consider adding relationships or removing isolated entities" }]
    else warnings3
  let warnings5 := match validate_diagram_type_appropriateness dd with
    | .appropriate => warnings4
    | .inappropriate reason suggested_type =>
      warnings4 ++ [{ severity := .warning, code := "INAPPROPRIATE_TYPE",
                      message :=
                        "Current diagram type may not be optimal for this content",
                      details := [("is_appropriate", ["False"]), ("reason", [reason]),
                        ("suggested_type", [suggested_type])],
                      suggested_fix := some
                        ("Consider using " ++ suggested_type ++ " diagram type") }]
  let metadata : List (String × ℚ) :=
    [("complexity_score", complexity_score),
     ("node_count", (dd.nodes.length : ℚ)),
     ("edge_count", (dd.edges.length : ℚ)),
     ("syntax_length", (dd.mermaid.length : ℚ)),
     ("has_positions", ((dd.nodes.filter (fun n => n.position.isSome)).length : ℚ)),
     ("error_count", (issues4.length : ℚ)),
     ("warning_count", (warnings5.length : ℚ))]
  { is_valid := issues4.isEmpty
    issues := issues4
    warnings := warnings5
    metadata := metadata }

/-! ### `generate_diagram` -/

/-- `DiagramEngine._validate_input_content`. The argument is `Option` because
the first check is Python's `if not content` (a dataclass instance is always
truthy, so this only fires on `None`). -/
def validate_input_content (content : Option ParsedContent) :
    Except EngineError ParsedContent :=
  match content with
  | none => .error (.generation "Input content is None" "input_validation" [])
  | some c =>
    if pyStrip c.raw_text == "" then
      .error (.generation "Input text is empty" "input_validation" [])
    else if c.entities.isEmpty && c.relationships.isEmpty then
      .error (.generation "No entities or relationships found in input"
        "input_validation" [("text_length", toString c.raw_text.length)])
    else if c.confidence < 0.1 then
      .error (.generation
        ("Input parsing confidence too low: " ++ toString c.confidence)
        "input_validation" [("confidence", toString c.confidence)])
    else .ok c

/-- The node/edge/syntax/metadata/layout section of `generate_diagram`, from
`_generate_nodes` up to the `DiagramData` constructor call. The node, edge and
syntax stages are total in this embedding (their Python `try/except` wrappers
can only fire on exceptions that have no counterpart here); the layout stage
can fail (`StopIteration` in the force-directed attraction pass, `IndexError`
on an empty node list) and is re-raised with stage `"layout_generation"`. -/
def build_diagram_data (o : MathOracle) (s0 : EngineState) (c : ParsedContent) :
    Except EngineError DiagramData :=
  let rn := generate_nodes s0 c.entities
  let re := generate_edges rn.2 c.relationships
  let nodes := rn.1
  let edges := re.1
  let mermaid := generate_mermaid_syntax c.suggested_diagram_type nodes edges
  let layout_config := generate_layout_config c.suggested_diagram_type
  let metadata := [("entity_count", toString c.entities.length),
    ("relationship_count", toString c.relationships.length),
    ("confidence", toString c.confidence),
    ("original_text_length", toString c.raw_text.length)]
  match apply_auto_layout o nodes edges c.suggested_diagram_type with
  | .error msg => .error (.generation ("Failed to apply auto-layout: " ++ msg)
      "layout_generation"
      [("node_count", toString nodes.length), ("edge_count", toString edges.length)])
  | .ok positioned_nodes => .ok
      { diagram_type := c.suggested_diagram_type
        mermaid := mermaid
        nodes := positioned_nodes
        edges := edges
        layout_config := layout_config
        metadata := metadata }

/-- The post-generation validation gate of `generate_diagram`: raise
`DiagramValidationError` when the comprehensive validation reports any
error-severity issue. -/
def final_validation_gate (dd : DiagramData) : Except EngineError DiagramData :=
  let validation_result := validate_diagram_comprehensive dd
  if validation_result.is_valid then .ok dd
  else
    let critical_errors := validation_result.issues.filter
      (fun issue => issue.severity == ValidationSeverity.error)
    if critical_errors.isEmpty then .ok dd
    else .error (.validation
      ("Generated diagram failed validation with " ++
        toString critical_errors.length ++ " critical errors")
      validation_result)

/-- `DiagramEngine.generate_diagram`: input validation, counter reset, node /
edge / syntax / layout synthesis, then the comprehensive-validation gate. -/
def generate_diagram (o : MathOracle) (s : EngineState)
    (content : Option ParsedContent) : Except EngineError DiagramData :=
  match validate_input_content content with
  | .error e => .error e
  | .ok c =>
    let s0 := reset_counters s
    match build_diagram_data o s0 c with
    | .error e => .error e
    | .ok dd => final_validation_gate dd
/-! ### Specification generator: workflow tracing and E2E tests
(`specification_generator.py`)

Only the test-scaffold fragment that claims refer to is embedded: the
language-keyed template tables are instantiated at `PYTHON` (the templates for
the other languages differ only in their literal strings). -/

/-- `TestType` enum. -/
inductive TestType
  | unit
  | integration
  | end_to_end
deriving DecidableEq, Repr

/-- `TestCase` dataclass. -/
structure TestCase where
  name : String
  description : String
  test_type : TestType
  setup_code : String
  test_code : String
  teardown_code : String
  assertions : List String
  related_acceptance_criteria : List String
deriving DecidableEq, Repr

/-- `SpecificationGenerator._find_node_by_id`. -/
def find_node_by_id (nodes : List Node) (node_id : String) : Option Node :=
  nodes.find? (fun n => n.id == node_id)

/-- Fallback node for `workflow[0]` / `workflow[-1]` reads: the callers guard
`len(workflow) < 2`, so the default is never used. -/
def defaultNode : Node :=
  { id := "", label := "", shape := "", entity_type := "", properties := [] }

mutual

/-- `SpecificationGenerator._trace_workflow_from_node`. The recursion is given
explicit fuel (Python terminates through the shared `visited` set; any fuel at
least the length of the longest possible chain is equivalent, and
`trace_workflow_singleton` below shows the function never recurses at all).
Returns the traced workflow together with the updated visited set. -/
def trace_workflow_from_node (fuel : Nat) (start_node : Node) (edges : List Edge)
    (visited : List String) : List Node × List String :=
  match fuel with
  | 0 => ([start_node], visited ++ [start_node.id])
  | Nat.succ f =>
    let visited1 := visited ++ [start_node.id]
    let outgoing := edges.filter (fun e => e.source_id == start_node.id)
    trace_outgoing f start_node [start_node] outgoing edges visited1

/-- The `for edge in outgoing:` loop body of `_trace_workflow_from_node`:
look the edge target up in `[n for n in workflow if n.id != start_node.id]`,
recurse and `break` on the first hit, otherwise continue. -/
def trace_outgoing (f : Nat) (start_node : Node) (workflow : List Node)
    (outgoing edges : List Edge) (visited : List String) : List Node × List String :=
  match outgoing with
  | [] => (workflow, visited)
  | edge :: rest =>
    match find_node_by_id (workflow.filter (fun n => n.id != start_node.id))
        edge.target_id with
    | none => trace_outgoing f start_node workflow rest edges visited
    | some target_node =>
      if visited.contains target_node.id then
        trace_outgoing f start_node workflow rest edges visited
      else
        let r := trace_workflow_from_node f target_node edges visited
        (workflow ++ r.1, r.2)

end

/-- The `for node in diagram_data.nodes:` loop of
`SpecificationGenerator._identify_workflows`. -/
def identify_workflows_loop (edges : List Edge) :
    List Node → List String → List (List Node) → List (List Node)
  | [], _, workflows => workflows
  | node :: rest, visited, workflows =>
    if visited.contains node.id then
      identify_workflows_loop edges rest visited workflows
    else
      let r := trace_workflow_from_node (edges.length + 1) node edges visited
      if r.1.length > 1 then
        identify_workflows_loop edges rest r.2 (workflows ++ [r.1])
      else
        identify_workflows_loop edges rest r.2 workflows

/-- `SpecificationGenerator._identify_workflows` (capped at 3 workflows). -/
def identify_workflows (dd : DiagramData) : List (List Node) :=
  (identify_workflows_loop dd.edges dd.nodes [] []).take 3

/-- `"_to_".join(node.label.lower().replace(" ", "_") for node in workflow[:3])`. -/
def workflow_name_of (workflow : List Node) : String :=
  String.intercalate "_to_"
    ((workflow.take 3).map (fun n => pyReplaceChar (pyLower n.label) ' ' '_'))

/-- `SpecificationGenerator._generate_happy_path_test`, Python template. -/
def generate_happy_path_test (workflow : List Node) : TestCase :=
  let workflow_name := workflow_name_of workflow
  let first := (workflow.headD defaultNode).label
  let last := (workflow.getLastD defaultNode).label
  { name := "test_" ++ workflow_name ++ "_happy_path"
    description := "Test complete workflow from " ++ first ++ " to " ++ last
    test_type := .end_to_end
    setup_code :=
      "        # Setup complete workflow\n        self.workflow = WorkflowManager()"
    test_code := "        # Test complete " ++ first ++ " to " ++ last ++
      " workflow\n        result = self.workflow.execute_complete_flow()\n" ++
      "        self.assertTrue(result.success)"
    teardown_code := "        # Cleanup workflow\n        self.workflow.cleanup()"
    assertions := ["Verify complete workflow executes successfully"]
    related_acceptance_criteria := [] }

/-- `SpecificationGenerator._generate_error_path_test`, Python template. -/
def generate_error_path_test (workflow : List Node) : TestCase :=
  let workflow_name := workflow_name_of workflow
  let first := (workflow.headD defaultNode).label
  let last := (workflow.getLastD defaultNode).label
  { name := "test_" ++ workflow_name ++ "_error_path"
    description := "Test error handling in workflow from " ++ first ++ " to " ++ last
    test_type := .end_to_end
    setup_code := "        # Setup workflow with error condition\n" ++
      "        self.workflow = WorkflowManager()\n        self.workflow.inject_error()"
    test_code := "        # Test " ++ first ++ " to " ++ last ++
      " error handling\n        result = self.workflow.execute_with_error()\n" ++
      "        self.assertFalse(result.success)\n" ++
      "        self.assertIsNotNone(result.error_message)"
    teardown_code := "        # Cleanup workflow\n        self.workflow.cleanup()"
    assertions := ["Verify workflow handles errors gracefully"]
    related_acceptance_criteria := [] }

/-- `SpecificationGenerator._generate_workflow_e2e_tests`: a happy-path and an
error-path test per workflow of length at least 2. -/
def generate_workflow_e2e_tests (workflow : List Node) : List TestCase :=
  if workflow.length < 2 then []
  else [generate_happy_path_test workflow, generate_error_path_test workflow]

/-- The test-case list of the E2E test file built by
`SpecificationGenerator._generate_e2e_test_file`: the concatenated workflow
tests of every identified workflow. -/
def e2e_test_cases_for (dd : DiagramData) : List TestCase :=
  (identify_workflows dd).foldl
    (fun acc workflow => acc ++ generate_workflow_e2e_tests workflow) []

/-- The gate in `generate_test_scaffold`: the end-to-end test file is added
exactly when the diagram has more than 2 edges. -/
def scaffold_has_e2e_file (dd : DiagramData) : Bool :=
  dd.edges.length > 2

/-! ### Result accessors used by the claim statements -/

/-- Nodes of a successful generation result. -/
def okNodes (r : Except EngineError DiagramData) : List Node :=
  match r with
  | .ok dd => dd.nodes
  | .error _ => []

/-- Edges of a successful generation result. -/
def okEdges (r : Except EngineError DiagramData) : List Edge :=
  match r with
  | .ok dd => dd.edges
  | .error _ => []

/-- Mermaid text of a successful generation result. -/
def okMermaid (r : Except EngineError DiagramData) : String :=
  match r with
  | .ok dd => dd.mermaid
  | .error _ => ""

/-- Placeholder diagram used by `okDiagram`. -/
def emptyDiagram : DiagramData :=
  { diagram_type := .flowchart, mermaid := "", nodes := [], edges := [],
    layout_config := [], metadata := [] }

/-- The diagram of a successful generation result. -/
def okDiagram (r : Except EngineError DiagramData) : DiagramData :=
  match r with
  | .ok dd => dd
  | .error _ => emptyDiagram

/-- Whether the result is a `DiagramGenerationError` tagged
`stage = "input_validation"`. -/
def inputValidationFailure (r : Except EngineError DiagramData) : Bool :=
  match r with
  | .error (.generation _ stage _) => stage == "input_validation"
  | _ => false

/-- Whether the result is a `DiagramValidationError`. -/
def isValidationError (r : Except EngineError DiagramData) : Bool :=
  match r with
  | .error (.validation _ _) => true
  | _ => false

/-- The message of a raised error (empty on success). -/
def errMessageOf (r : Except EngineError DiagramData) : String :=
  match r with
  | .error (.generation message _ _) => message
  | .error (.validation message _) => message
  | .ok _ => ""

/-- Whether a validation result records an error-severity issue with the given
code. -/
def hasErrorIssue (vr : ValidationResult) (code : String) : Bool :=
  vr.issues.any (fun issue =>
    issue.severity == ValidationSeverity.error && issue.code == code)

/-! ### C4: the workflow tracer never extends a workflow

`_trace_workflow_from_node` looks the edge target up in
`[n for n in workflow if n.id != start_node.id]`, and at that point `workflow`
is always exactly `[start_node]`, so the lookup list is empty and the lookup
always fails. -/

theorem trace_outgoing_singleton (f : Nat) (start_node : Node) (edges : List Edge) :
    ∀ (outgoing : List Edge) (visited : List String),
      trace_outgoing f start_node [start_node] outgoing edges visited =
        ([start_node], visited) := by
  intro outgoing
  induction outgoing with
  | nil => intro visited; simp [trace_outgoing]
  | cons edge rest ih =>
    intro visited
    have hfilter : ([start_node].filter (fun n => n.id != start_node.id)) = [] := by
      simp [List.filter]
    unfold trace_outgoing
    rw [hfilter]
    simp only [find_node_by_id, List.find?]
    exact ih visited

theorem trace_workflow_singleton (fuel : Nat) (start_node : Node)
    (edges : List Edge) (visited : List String) :
    trace_workflow_from_node fuel start_node edges visited =
      ([start_node], visited ++ [start_node.id]) := by
  cases fuel with
  | zero => simp [trace_workflow_from_node]
  | succ f =>
    unfold trace_workflow_from_node
    exact trace_outgoing_singleton f start_node edges _ _

theorem identify_workflows_loop_eq (edges : List Edge) :
    ∀ (nodes : List Node) (visited : List String) (workflows : List (List Node)),
      identify_workflows_loop edges nodes visited workflows = workflows := by
  intro nodes
  induction nodes with
  | nil => intro visited workflows; rfl
  | cons node rest ih =>
    intro visited workflows
    unfold identify_workflows_loop
    by_cases h : visited.contains node.id = true
    · simp only [h, if_true]
      exact ih visited workflows
    · simp only [Bool.not_eq_true] at h
      simp only [h, Bool.false_eq_true, if_false]
      rw [trace_workflow_singleton]
      simp only [List.length_singleton, gt_iff_lt, lt_self_iff_false, if_false]
      exact ih _ workflows

/-- C4: the claim says the end-to-end test file contains one happy-path plus
one error-path test per greedily traced workflow (chains following the first
outgoing edge, capped at 3).  In the code, however, `_trace_workflow_from_node`
can never extend a workflow past its start node, so `_identify_workflows`
returns no workflow at all and the end-to-end test file always has zero test
cases — for every diagram, in particular for every diagram with more than 2
edges. -/
theorem C4_e2e_test_cases_always_empty (dd : DiagramData) :
    identify_workflows dd = [] ∧ e2e_test_cases_for dd = [] := by
  have h : identify_workflows dd = [] := by
    unfold identify_workflows
    rw [identify_workflows_loop_eq]
    rfl
  exact ⟨h, by unfold e2e_test_cases_for; rw [h]; rfl⟩

/-! ### C8: diagram-type suggestions -/

theorem erd_score_bounds (text : String) (entities : List Entity)
    (relationships : List Relationship) :
    0 ≤ calculate_erd_score text entities relationships ∧
      calculate_erd_score text entities relationships ≤ 1 := by
  simp only [calculate_erd_score]
  constructor
  · refine le_min ?_ (by norm_num)
    repeat' apply add_nonneg
    all_goals first
      | positivity
      | (split_ifs <;> positivity)
  · exact min_le_right _ _

theorem sequence_score_bounds (text : String) (entities : List Entity)
    (relationships : List Relationship) :
    0 ≤ calculate_sequence_score text entities relationships ∧
      calculate_sequence_score text entities relationships ≤ 1 := by
  simp only [calculate_sequence_score]
  constructor
  · refine le_min ?_ (by norm_num)
    repeat' apply add_nonneg
    all_goals first
      | positivity
      | (split_ifs <;> positivity)
  · exact min_le_right _ _

theorem class_score_bounds (text : String) (entities : List Entity)
    (relationships : List Relationship) :
    0 ≤ calculate_class_score text entities relationships ∧
      calculate_class_score text entities relationships ≤ 1 := by
  simp only [calculate_class_score]
  constructor
  · refine le_min ?_ (by norm_num)
    repeat' apply add_nonneg
    all_goals first
      | positivity
      | (split_ifs <;> positivity)
  · exact min_le_right _ _

theorem process_score_bounds (text : String) (entities : List Entity)
    (relationships : List Relationship) :
    0 ≤ calculate_process_score text entities relationships ∧
      calculate_process_score text entities relationships ≤ 1 := by
  simp only [calculate_process_score]
  constructor
  · refine le_min ?_ (by norm_num)
    repeat' apply add_nonneg
    all_goals first
      | positivity
      | (split_ifs <;> positivity)
  · exact min_le_right _ _

theorem flowchart_score_bounds (text : String) (entities : List Entity)
    (relationships : List Relationship) :
    0 ≤ calculate_flowchart_score text entities relationships ∧
      calculate_flowchart_score text entities relationships ≤ 1 := by
  simp only [calculate_flowchart_score]
  constructor
  · refine le_min ?_ (by norm_num)
    repeat' apply add_nonneg
    all_goals first
      | positivity
      | (split_ifs <;> positivity)
  · exact min_le_right _ _

/-- C8: `get_diagram_type_suggestions` always returns exactly the five
supported diagram types, sorted in descending score order, every score
within `[0, 1]`. -/
theorem C8_diagram_type_suggestions_sorted_and_bounded (text : String)
    (entities : List Entity) (relationships : List Relationship) :
    ((get_diagram_type_suggestions text entities relationships).map Prod.fst).Perm
        ["erd", "sequence", "class", "process", "flowchart"] ∧
    (get_diagram_type_suggestions text entities relationships).Sorted
        (fun a b => b.2 ≤ a.2) ∧
    ∀ p ∈ get_diagram_type_suggestions text entities relationships,
      0 ≤ p.2 ∧ p.2 ≤ 1 := by
  haveI htotal : IsTotal (String × ℚ) (fun a b => b.2 ≤ a.2) :=
    ⟨fun a b => le_total b.2 a.2⟩
  haveI htrans : IsTrans (String × ℚ) (fun a b => b.2 ≤ a.2) :=
    ⟨fun _ _ _ hab hbc => le_trans hbc hab⟩
  refine ⟨?_, ?_, ?_⟩
  · unfold get_diagram_type_suggestions
    exact (List.perm_insertionSort _ _).map Prod.fst
  · exact List.sorted_insertionSort _ _
  · intro p hp
    unfold get_diagram_type_suggestions at hp
    have hp' := (List.perm_insertionSort (fun a b : String × ℚ => b.2 ≤ a.2) _).mem_iff.mp hp
    simp only [List.mem_cons, List.not_mem_nil, or_false] at hp'
    rcases hp' with rfl | rfl | rfl | rfl | rfl
    · exact erd_score_bounds text entities relationships
    · exact sequence_score_bounds text entities relationships
    · exact class_score_bounds text entities relationships
    · exact process_score_bounds text entities relationships
    · exact flowchart_score_bounds text entities relationships

/-- Witness for C8 at a concrete input. -/
theorem C8_diagram_type_suggestions_witness :
    0 ≤ (("flowchart", (0.3 : ℚ))).2 ∧ (("flowchart", (0.3 : ℚ))).2 ≤ 1 :=
  (C8_diagram_type_suggestions_sorted_and_bounded "" [] []).2.2
    ("flowchart", (0.3 : ℚ)) (by decide)

example :
    get_diagram_type_suggestions "" [] [] =
      [("flowchart", 0.3), ("erd", 0), ("sequence", 0), ("class", 0),
       ("process", 0)] := by decide

/-! ### C7: empty input to `parse_text` -/

/-- C7: every empty or whitespace-only input makes `parse_text` return, without
error, the empty `ParsedContent` with zero entities, zero relationships,
suggested type `flowchart` and confidence `0.0` — for any behaviour of the
spaCy-backed extraction stages. -/
theorem C7_parse_text_empty_input
    (extract_entities : String → List Entity)
    (identify_relationships : String → List Entity → List Relationship)
    (text : String) (h : pyStrip text = "") :
    parse_text extract_entities identify_relationships text =
      { entities := []
        relationships := []
        suggested_diagram_type := DiagramType.flowchart
        diagram_type_suggestions :=
          [("flowchart", 0.3), ("erd", 0.0), ("sequence", 0.0),
           ("class", 0.0), ("process", 0.0)]
        confidence := 0.0
        raw_text := text } := by
  unfold parse_text
  simp [h]

/-- Witness for C7 at the empty string. -/
theorem C7_parse_text_empty_input_witness :
    pyStrip "" = "" ∧
    parse_text (fun _ => []) (fun _ _ => []) "" =
      { entities := []
        relationships := []
        suggested_diagram_type := DiagramType.flowchart
        diagram_type_suggestions :=
          [("flowchart", 0.3), ("erd", 0.0), ("sequence", 0.0),
           ("class", 0.0), ("process", 0.0)]
        confidence := 0.0
        raw_text := "" } :=
  ⟨by decide, C7_parse_text_empty_input (fun _ => []) (fun _ _ => []) "" (by decide)⟩

/-! ### C6: parser confidence -/

/-- The confidence formula as the spec words it ("mean entity confidence plus
`min(0.1 × relationship_count, 0.3)`, clamped to 1.0, rounded to 2 decimals;
0 entities ⇒ confidence 0"), for comparison with `calculate_confidence`. -/
def confidence_formula_spec (entities : List Entity)
    (relationships : List Relationship) : ℚ :=
  if entities.length = 0 then 0
  else pyRound2 (min ((entities.map (fun e => e.confidence)).sum /
    (entities.length : ℚ) + min (0.1 * (relationships.length : ℚ)) 0.3) 1)

theorem sum_confidence_bounds (entities : List Entity)
    (h : ∀ e ∈ entities, 0 ≤ e.confidence ∧ e.confidence ≤ 1) :
    0 ≤ (entities.map (fun e => e.confidence)).sum ∧
      (entities.map (fun e => e.confidence)).sum ≤ (entities.length : ℚ) := by
  induction entities with
  | nil => simp
  | cons e rest ih =>
    have he := h e (List.mem_cons_self e rest)
    have ihr := ih (fun x hx => h x (List.mem_cons_of_mem _ hx))
    simp only [List.map_cons, List.sum_cons, List.length_cons, Nat.cast_add,
      Nat.cast_one]
    constructor
    · linarith [he.1, ihr.1]
    · linarith [he.2, ihr.2]

theorem roundHalfEven_bounds {q : ℚ} (h0 : 0 ≤ q) (h1 : q ≤ 100) :
    0 ≤ roundHalfEven q ∧ roundHalfEven q ≤ 100 := by
  unfold roundHalfEven
  dsimp only
  have hf0 : 0 ≤ ⌊q⌋ := Int.le_floor.mpr (by exact_mod_cast h0)
  have hf100 : ⌊q⌋ ≤ 100 := by
    calc ⌊q⌋ ≤ ⌊(100 : ℚ)⌋ := Int.floor_le_floor h1
      _ = 100 := by norm_num
  have hfle : (⌊q⌋ : ℚ) ≤ q := Int.floor_le q
  split_ifs with hlt hgt heven
  · exact ⟨hf0, hf100⟩
  · constructor
    · omega
    · have : (⌊q⌋ : ℚ) < q - 1/2 + 1/2 := by linarith
      have h99 : (⌊q⌋ : ℚ) + 1/2 < 100 + 1/2 := by linarith
      have : (⌊q⌋ : ℚ) < 99 + 1 := by linarith
      have : ⌊q⌋ < 100 := by exact_mod_cast this
      omega
  · exact ⟨hf0, hf100⟩
  · constructor
    · omega
    · have hfrac : q - ⌊q⌋ = 1/2 := le_antisymm (not_lt.mp hgt) (not_lt.mp hlt)
      have : (⌊q⌋ : ℚ) = q - 1/2 := by linarith
      have : (⌊q⌋ : ℚ) < 100 := by linarith
      have : ⌊q⌋ < 100 := by exact_mod_cast this
      omega

theorem pyRound2_bounds {q : ℚ} (h0 : 0 ≤ q) (h1 : q ≤ 1) :
    0 ≤ pyRound2 q ∧ pyRound2 q ≤ 1 := by
  unfold pyRound2
  have hb := roundHalfEven_bounds (q := 100 * q) (by linarith) (by linarith)
  constructor
  · apply div_nonneg _ (by norm_num)
    exact_mod_cast hb.1
  · rw [div_le_one (by norm_num)]
    exact_mod_cast hb.2

/-- C6: the parser's overall confidence equals the spec's formula (mean entity
confidence plus `min(0.1 × relationship_count, 0.3)`, clamped to 1.0, rounded
to 2 decimals), is 0 on zero entities, and — for entities carrying confidences
in `[0, 1]`, as the data model requires — always lies in `[0, 1]`. -/
theorem C6_confidence_formula_and_bounds (entities : List Entity)
    (relationships : List Relationship) :
    calculate_confidence entities relationships =
        confidence_formula_spec entities relationships ∧
    (entities = [] → calculate_confidence entities relationships = 0) ∧
    ((∀ e ∈ entities, 0 ≤ e.confidence ∧ e.confidence ≤ 1) →
      0 ≤ calculate_confidence entities relationships ∧
        calculate_confidence entities relationships ≤ 1) := by
  refine ⟨?_, ?_, ?_⟩
  · unfold calculate_confidence confidence_formula_spec
    rcases entities with _ | ⟨e, rest⟩
    · simp
    · simp only [List.isEmpty_cons, List.length_cons, Nat.succ_ne_zero, if_false,
        Bool.false_eq_true]
      ring_nf
  · intro h
    subst h
    rfl
  · intro h
    rcases hcase : entities with _ | ⟨e, rest⟩
    · subst hcase
      unfold calculate_confidence
      norm_num
    · rw [← hcase]
      have hne : entities.isEmpty = false := by
        subst hcase
        rfl
      unfold calculate_confidence
      rw [hne]
      simp only [Bool.false_eq_true, if_false]
      have hlen : (0 : ℚ) < (entities.length : ℚ) := by
        subst hcase
        exact_mod_cast Nat.succ_pos rest.length
      have hsum := sum_confidence_bounds entities h
      have hec0 : 0 ≤ (entities.map (fun e => e.confidence)).sum /
          (entities.length : ℚ) := div_nonneg hsum.1 (le_of_lt hlen)
      have hec1 : (entities.map (fun e => e.confidence)).sum /
          (entities.length : ℚ) ≤ 1 := by
        rw [div_le_one hlen]
        exact hsum.2
      have hrb0 : 0 ≤ min ((relationships.length : ℚ) * 0.1) 0.3 :=
        le_min (by positivity) (by norm_num)
      have htot0 : 0 ≤ min ((entities.map (fun e => e.confidence)).sum /
          (entities.length : ℚ) + min ((relationships.length : ℚ) * 0.1) 0.3) 1 :=
        le_min (by linarith) (by norm_num)
      have htot1 : min ((entities.map (fun e => e.confidence)).sum /
          (entities.length : ℚ) + min ((relationships.length : ℚ) * 0.1) 0.3) 1 ≤ 1 :=
        min_le_right _ _
      exact pyRound2_bounds htot0 htot1

/-- Witness for C6 at a concrete entity/relationship list. -/
theorem C6_confidence_witness :
    ([] : List Entity) = [] ∧
    calculate_confidence [] [] = 0 ∧
    0 ≤ calculate_confidence
        [{ name := "User", type := .actor, properties := [], confidence := 0.8,
           start_pos := 0, end_pos := 4 }] [] ∧
    calculate_confidence
        [{ name := "User", type := .actor, properties := [], confidence := 0.8,
           start_pos := 0, end_pos := 4 }] [] ≤ 1 := by
  refine ⟨rfl, (C6_confidence_formula_and_bounds [] []).2.1 rfl, ?_, ?_⟩
  · exact ((C6_confidence_formula_and_bounds _ []).2.2 (by decide)).1
  · exact ((C6_confidence_formula_and_bounds _ []).2.2 (by decide)).2

/-! ### C1: determinism of `generate_diagram` -/

/-- C1: two calls on identical `ParsedContent` yield identical node ids and
identical mermaid syntax whatever engine state (`node_counter`,
`node_id_map`) each call starts from, because `_reset_counters` wipes that
state before any id is assigned. -/
theorem C1_generate_diagram_deterministic (o : MathOracle) (s1 s2 : EngineState)
    (content : Option ParsedContent) :
    (generate_diagram o s1 content).map
        (fun dd => (dd.nodes.map (fun n => n.id), dd.mermaid)) =
    (generate_diagram o s2 content).map
        (fun dd => (dd.nodes.map (fun n => n.id), dd.mermaid)) := rfl

/-! ### C3: input-validation failures -/

/-- The rejection condition as the claim words it: null input, empty or blank
raw text, zero entities and zero relationships, or confidence below 0.1. -/
def input_rejection_spec (content : Option ParsedContent) : Bool :=
  match content with
  | none => true
  | some c =>
    (pyStrip c.raw_text == "") || (c.entities.isEmpty && c.relationships.isEmpty) ||
      decide (c.confidence < 0.1)

theorem build_diagram_data_error_stage (o : MathOracle) (s : EngineState)
    (c : ParsedContent) (e : EngineError)
    (h : build_diagram_data o s c = .error e) :
    ∃ m dt, e = .generation m "layout_generation" dt := by
  unfold build_diagram_data at h
  dsimp only at h
  rcases happly : apply_auto_layout o (generate_nodes s c.entities).1
      ((generate_edges (generate_nodes s c.entities).2 c.relationships).1)
      c.suggested_diagram_type with msg | out
  · rw [happly] at h
    exact ⟨_, _, (Except.error.inj h).symm⟩
  · rw [happly] at h
    exact absurd h (by simp)

theorem final_validation_gate_error_is_validation (dd : DiagramData)
    (e : EngineError) (h : final_validation_gate dd = .error e) :
    ∃ m vr, e = .validation m vr := by
  unfold final_validation_gate at h
  dsimp only at h
  split_ifs at h <;>
    first
      | exact ⟨_, _, (Except.error.inj h).symm⟩
      | exact absurd h (by simp)

theorem generate_after_ok_not_input_validation (o : MathOracle) (s : EngineState)
    (c : ParsedContent) :
    inputValidationFailure
      (match build_diagram_data o (reset_counters s) c with
        | .error e => .error e
        | .ok dd => final_validation_gate dd) = false := by
  cases hb : build_diagram_data o (reset_counters s) c with
  | error e =>
    obtain ⟨m, dt, rfl⟩ := build_diagram_data_error_stage o _ c e hb
    simp [inputValidationFailure]
  | ok dd =>
    cases hg : final_validation_gate dd with
    | error e =>
      obtain ⟨m, vr, rfl⟩ := final_validation_gate_error_is_validation dd e hg
      simp [inputValidationFailure, hg]
    | ok dd' => simp [inputValidationFailure, hg]

/-- C3 (amended): `generate_diagram` raises `GenerationError` with stage
`"input_validation"` exactly on the claim's four conditions; and a
`ParsedContent` with confidence `0.05` that passes the earlier checks
(non-blank raw text, at least one entity or relationship) raises
`GenerationError(stage="input_validation")` whose message mentions the
confidence.  (For a blank-text `ParsedContent` with confidence 0.05 the stage
is still `"input_validation"` but the message is `"Input text is empty"`,
which is what `C3_counterexample` below exhibits.) -/
theorem C3_input_validation_amended :
    (∀ (o : MathOracle) (s : EngineState) (content : Option ParsedContent),
      inputValidationFailure (generate_diagram o s content) =
        input_rejection_spec content) ∧
    (∀ (o : MathOracle) (s : EngineState) (c : ParsedContent),
      pyStrip c.raw_text ≠ "" → ¬(c.entities = [] ∧ c.relationships = []) →
      c.confidence = 0.05 →
      inputValidationFailure (generate_diagram o s (some c)) = true ∧
      errMessageOf (generate_diagram o s (some c)) =
        "Input parsing confidence too low: " ++ toString c.confidence ∧
      pyIn "confidence" (errMessageOf (generate_diagram o s (some c))) = true) := by
  have hmain : ∀ (o : MathOracle) (s : EngineState) (content : Option ParsedContent),
      inputValidationFailure (generate_diagram o s content) =
        input_rejection_spec content := by
    intro o s content
    cases content with
    | none => rfl
    | some c =>
      unfold generate_diagram validate_input_content input_rejection_spec
      by_cases h1 : pyStrip c.raw_text == ""
      · simp [h1, inputValidationFailure]
      · by_cases h2 : c.entities.isEmpty && c.relationships.isEmpty
        · simp [h1, h2, inputValidationFailure]
        · by_cases h3 : c.confidence < 0.1
          · simp [h1, h2, h3, inputValidationFailure]
          · dsimp only
            rw [if_neg h1, if_neg h2, if_neg h3]
            dsimp only
            rw [generate_after_ok_not_input_validation o s c]
            simp [h1, h2, h3]
  refine ⟨hmain, ?_⟩
  intro o s c hraw hne hconf
  have hstep : generate_diagram o s (some c) =
      .error (.generation ("Input parsing confidence too low: " ++
        toString c.confidence) "input_validation"
        [("confidence", toString c.confidence)]) := by
    unfold generate_diagram validate_input_content
    have h1 : (pyStrip c.raw_text == "") = false := by
      simpa [beq_iff_eq] using hraw
    have h2 : (c.entities.isEmpty && c.relationships.isEmpty) = false := by
      rcases he : c.entities with _ | _
      · rcases hr : c.relationships with _ | _
        · exact absurd ⟨he, hr⟩ hne
        · simp
      · simp
    have h3 : c.confidence < 0.1 := by
      rw [hconf]
      norm_num
    simp [h1, h2, h3]
  rw [hstep]
  refine ⟨rfl, rfl, ?_⟩
  rw [hconf]
  decide

/-! ### Concrete fixtures for witnesses and counterexamples -/

/-- A concrete math oracle (witnesses never depend on its values). -/
def oracle0 : MathOracle :=
  { pi := 0, cos := fun _ => 0, sin := fun _ => 0, sqrt := fun _ => 0 }

/-- The engine state a witness starts from (deliberately dirty, to exercise
the per-call reset). -/
def dirtyState : EngineState :=
  { node_counter := 7, node_id_map := [("Ghost", "Ghost_3")] }

/-- Fixture entity: the actor `User`. -/
def entityUser : Entity :=
  { name := "User", type := .actor, properties := [], confidence := 0.8,
    start_pos := 0, end_pos := 4 }

/-- Fixture entity: the system `Login System`. -/
def entityLogin : Entity :=
  { name := "Login System", type := .system, properties := [], confidence := 0.8,
    start_pos := 10, end_pos := 22 }

/-- A `ParsedContent` with blank raw text and confidence 0.05. -/
def blankTextLowConfidence : ParsedContent :=
  { entities := [entityUser], relationships := [],
    suggested_diagram_type := .flowchart, diagram_type_suggestions := [],
    confidence := 0.05, raw_text := "" }

/-- A `ParsedContent` with proper text and confidence 0.05. -/
def lowConfidenceContent : ParsedContent :=
  { entities := [entityUser], relationships := [],
    suggested_diagram_type := .flowchart, diagram_type_suggestions := [],
    confidence := 0.05, raw_text := "User logs in" }

/-- A well-formed two-entity sequence-diagram input accepted end to end. -/
def seqContent : ParsedContent :=
  { entities := [entityUser, entityLogin],
    relationships := [{ source := "User", target := "Login System",
                        type := "uses", label := "authenticates",
                        confidence := 0.7 }],
    suggested_diagram_type := .sequence, diagram_type_suggestions := [],
    confidence := 0.9, raw_text := "User uses Login System" }

/-- A sequence-diagram input whose relationship targets an unknown entity. -/
def orphanContent : ParsedContent :=
  { entities := [entityUser],
    relationships := [{ source := "User", target := "Ghost Service",
                        type := "uses", label := "",
                        confidence := 0.7 }],
    suggested_diagram_type := .sequence, diagram_type_suggestions := [],
    confidence := 0.9, raw_text := "User uses Ghost Service" }

/-- A sequence-diagram input listing the same entity name twice. -/
def dupContent : ParsedContent :=
  { entities := [entityUser, entityUser], relationships := [],
    suggested_diagram_type := .sequence, diagram_type_suggestions := [],
    confidence := 0.9, raw_text := "User and User" }

example : (generate_diagram oracle0 dirtyState (some seqContent)).isOk = true := by
  decide

/-- Counterexample to C3 as stated: this `ParsedContent` has confidence 0.05,
`generate_diagram` does raise with stage `"input_validation"`, but the message
is `"Input text is empty"` (the blank-text check fires first) and does not
mention the confidence. -/
theorem C3_counterexample :
    blankTextLowConfidence.confidence = 0.05 ∧
    inputValidationFailure
      (generate_diagram oracle0 dirtyState (some blankTextLowConfidence)) = true ∧
    errMessageOf
      (generate_diagram oracle0 dirtyState (some blankTextLowConfidence)) =
      "Input text is empty" ∧
    pyIn "confidence"
      (errMessageOf
        (generate_diagram oracle0 dirtyState (some blankTextLowConfidence))) =
      false := by
  refine ⟨rfl, by decide, by decide, by decide⟩

/-- Witness for C3: a confidence-0.05 input passing the earlier checks. -/
theorem C3_input_validation_witness :
    inputValidationFailure
      (generate_diagram oracle0 dirtyState (some lowConfidenceContent)) = true ∧
    errMessageOf (generate_diagram oracle0 dirtyState (some lowConfidenceContent)) =
      "Input parsing confidence too low: " ++ toString lowConfidenceContent.confidence ∧
    pyIn "confidence"
      (errMessageOf
        (generate_diagram oracle0 dirtyState (some lowConfidenceContent))) = true :=
  C3_input_validation_amended.2 oracle0 dirtyState lowConfidenceContent
    (by decide) (by decide) rfl

/-! ### Layout preservation lemmas

Every layout branch only attaches a position to each node, so the nodes of a
generated diagram are the synthesized nodes up to position (and, for the
sequence layout, up to the actors-first reordering). -/

/-- Forget a node's position. -/
def eraseP (n : Node) : Node := { n with position := none }

theorem map_pos_update_eraseP (g : Node → Position) (l : List Node) :
    (l.map (fun n => { n with position := some (g n) })).map eraseP =
      l.map eraseP := by
  induction l with
  | nil => rfl
  | cons n rest ih => simp [eraseP, ih]

theorem map_pos_update_isSome (g : Node → Position) (l : List Node) :
    ∀ n ∈ l.map (fun n => { n with position := some (g n) }), n.position.isSome := by
  intro n hn
  rcases List.mem_map.mp hn with ⟨m, _, rfl⟩
  rfl

theorem mapIdx_pos_update_eraseP (p : Nat → Node → Position) (l : List Node) :
    (l.mapIdx (fun i n => { n with position := some (p i n) })).map eraseP =
      l.map eraseP := by
  induction l generalizing p with
  | nil => rfl
  | cons n rest ih =>
    simp only [List.mapIdx_cons, List.map_cons]
    rw [ih (fun i => p (i + 1))]
    rfl

theorem mapIdx_pos_update_isSome (p : Nat → Node → Position) (l : List Node) :
    ∀ n ∈ l.mapIdx (fun i n => { n with position := some (p i n) }),
      n.position.isSome := by
  induction l generalizing p with
  | nil => intro n hn; simp at hn
  | cons m rest ih =>
    intro n hn
    rw [List.mapIdx_cons] at hn
    rcases List.mem_cons.mp hn with rfl | hn
    · rfl
    · exact ih (fun i => p (i + 1)) n hn

theorem apply_hierarchical_layout_core (nodes : List Node) (edges : List Edge)
    (out : List Node) (h : apply_hierarchical_layout nodes edges = .ok out) :
    out.map eraseP = nodes.map eraseP ∧ ∀ n ∈ out, n.position.isSome := by
  unfold apply_hierarchical_layout at h
  dsimp only at h
  split_ifs at h <;>
    first
      | exact Except.noConfusion h
      | (rw [Except.ok.injEq] at h
         subst h
         exact ⟨map_pos_update_eraseP _ _, map_pos_update_isSome _ _⟩)

theorem apply_process_layout_core (nodes : List Node) (edges : List Edge)
    (out : List Node) (h : apply_process_layout nodes edges = .ok out) :
    out.map eraseP = nodes.map eraseP ∧ ∀ n ∈ out, n.position.isSome := by
  unfold apply_process_layout at h
  dsimp only at h
  split_ifs at h <;>
    first
      | exact Except.noConfusion h
      | (rw [Except.ok.injEq] at h
         subst h
         exact ⟨map_pos_update_eraseP _ _, map_pos_update_isSome _ _⟩)

theorem apply_sequence_layout_core (nodes : List Node) (edges : List Edge) :
    ((apply_sequence_layout nodes edges).map eraseP).Perm (nodes.map eraseP) ∧
    ∀ n ∈ apply_sequence_layout nodes edges, n.position.isSome := by
  unfold apply_sequence_layout
  dsimp only
  constructor
  · rw [List.map_append, mapIdx_pos_update_eraseP, mapIdx_pos_update_eraseP,
      ← List.map_append]
    exact (List.filter_append_perm _ nodes).map eraseP
  · intro n hn
    rcases List.mem_append.mp hn with hn | hn
    · exact mapIdx_pos_update_isSome _ _ n hn
    · exact mapIdx_pos_update_isSome _ _ n hn

theorem apply_grid_layout_core (nodes : List Node) :
    ((apply_grid_layout nodes).map eraseP) = nodes.map eraseP ∧
    ∀ n ∈ apply_grid_layout nodes, n.position.isSome := by
  unfold apply_grid_layout
  dsimp only
  exact ⟨mapIdx_pos_update_eraseP _ _, mapIdx_pos_update_isSome _ _⟩

theorem forceIteration_core (o : MathOracle) (edges : List Edge)
    (ns out : List Node) (h : forceIteration o edges ns = .ok out) :
    out.map eraseP = ns.map eraseP ∧ ∀ n ∈ out, n.position.isSome := by
  unfold forceIteration at h
  dsimp only at h
  rcases ha : attractStep o ns edges _ with e | forces2
  · rw [ha] at h
    exact absurd h (by simp)
  · rw [ha] at h
    rw [Except.ok.injEq] at h
    subst h
    exact ⟨map_pos_update_eraseP _ _, map_pos_update_isSome _ _⟩

theorem forceIterations_core (o : MathOracle) (edges : List Edge) :
    ∀ (k : Nat) (ns out : List Node), forceIterations o edges k ns = .ok out →
      out.map eraseP = ns.map eraseP ∧
      ((∀ n ∈ ns, n.position.isSome) → ∀ n ∈ out, n.position.isSome) := by
  intro k
  induction k with
  | zero =>
    intro ns out h
    rw [show forceIterations o edges 0 ns = .ok ns from rfl, Except.ok.injEq] at h
    subst h
    exact ⟨rfl, fun hs => hs⟩
  | succ k ih =>
    intro ns out h
    rw [show forceIterations o edges (k + 1) ns =
        (match forceIteration o edges ns with
          | .error e => .error e
          | .ok ns' => forceIterations o edges k ns') from rfl] at h
    rcases hi : forceIteration o edges ns with e | ns'
    · rw [hi] at h
      exact absurd h (by simp)
    · rw [hi] at h
      have hone := forceIteration_core o edges ns ns' hi
      have hrest := ih ns' out h
      exact ⟨hrest.1.trans hone.1, fun _ => hrest.2 hone.2⟩

theorem apply_force_directed_layout_core (o : MathOracle) (nodes : List Node)
    (edges : List Edge) (out : List Node)
    (h : apply_force_directed_layout o nodes edges = .ok out) :
    out.map eraseP = nodes.map eraseP ∧ ∀ n ∈ out, n.position.isSome := by
  unfold apply_force_directed_layout at h
  dsimp only at h
  split_ifs at h with hle
  · rw [Except.ok.injEq] at h
    subst h
    exact apply_grid_layout_core nodes
  · have hseed := forceIterations_core o edges 50 _ out h
    refine ⟨hseed.1.trans (mapIdx_pos_update_eraseP _ _), ?_⟩
    exact hseed.2 (mapIdx_pos_update_isSome _ _)

theorem apply_auto_layout_core (o : MathOracle) (nodes : List Node)
    (edges : List Edge) (t : DiagramType) (out : List Node)
    (h : apply_auto_layout o nodes edges t = .ok out) :
    (out.map eraseP).Perm (nodes.map eraseP) ∧
    (t ≠ DiagramType.sequence → out.map eraseP = nodes.map eraseP) ∧
    (∀ n ∈ out, n.position.isSome) := by
  unfold apply_auto_layout at h
  split_ifs at h with hempty
  · rw [Except.ok.injEq] at h
    subst h
    have : nodes = [] := by simpa using hempty
    subst this
    exact ⟨List.Perm.refl _, fun _ => rfl, fun n hn => absurd hn (by simp)⟩
  · cases t with
    | flowchart =>
      have hc := apply_hierarchical_layout_core nodes edges out h
      exact ⟨hc.1 ▸ List.Perm.refl _, fun _ => hc.1, hc.2⟩
    | sequence =>
      rw [Except.ok.injEq] at h
      subst h
      have hc := apply_sequence_layout_core nodes edges
      exact ⟨hc.1, fun hne => absurd rfl hne, hc.2⟩
    | erd =>
      have hc := apply_force_directed_layout_core o nodes edges out
        (by simpa [apply_erd_layout] using h)
      exact ⟨hc.1 ▸ List.Perm.refl _, fun _ => hc.1, hc.2⟩
    | class_ =>
      have hc := apply_hierarchical_layout_core nodes edges out
        (by simpa [apply_class_layout] using h)
      exact ⟨hc.1 ▸ List.Perm.refl _, fun _ => hc.1, hc.2⟩
    | process =>
      have hc := apply_process_layout_core nodes edges out h
      exact ⟨hc.1 ▸ List.Perm.refl _, fun _ => hc.1, hc.2⟩

/-! ### Structure of the comprehensive validation result -/

/-- The nodes synthesized from the content's entities with the per-call fresh
state (`_reset_counters` has just run). -/
def base_nodes (c : ParsedContent) : List Node :=
  (generate_nodes { node_counter := 0, node_id_map := [] } c.entities).1

/-- The edges synthesized from the content's relationships, continuing from
the node-synthesis state. -/
def base_edges (c : ParsedContent) : List Edge :=
  (generate_edges (generate_nodes { node_counter := 0, node_id_map := [] }
    c.entities).2 c.relationships).1

theorem validate_is_valid_eq (dd : DiagramData) :
    (validate_diagram_comprehensive dd).is_valid =
      (validate_diagram_comprehensive dd).issues.isEmpty := rfl

theorem validate_issues_all_error_bool (dd : DiagramData) :
    (validate_diagram_comprehensive dd).issues.all
      (fun i => i.severity == ValidationSeverity.error) = true := by
  unfold validate_diagram_comprehensive
  dsimp only
  split_ifs <;> simp

theorem validate_issues_all_error (dd : DiagramData) :
    ∀ i ∈ (validate_diagram_comprehensive dd).issues,
      i.severity = ValidationSeverity.error := by
  intro i hi
  have := List.all_eq_true.mp (validate_issues_all_error_bool dd) i hi
  simpa using this

theorem final_validation_gate_ok (dd0 dd : DiagramData)
    (h : final_validation_gate dd0 = .ok dd) :
    dd = dd0 ∧ (validate_diagram_comprehensive dd0).issues = [] := by
  unfold final_validation_gate at h
  dsimp only at h
  split_ifs at h with hv hc
  · rw [Except.ok.injEq] at h
    refine ⟨h.symm, ?_⟩
    rw [validate_is_valid_eq] at hv
    simpa using hv
  · rw [Except.ok.injEq] at h
    refine ⟨h.symm, ?_⟩
    have hall := validate_issues_all_error dd0
    have hfilter : (validate_diagram_comprehensive dd0).issues.filter
        (fun issue => issue.severity == ValidationSeverity.error) =
        (validate_diagram_comprehensive dd0).issues := by
      apply List.filter_eq_self.mpr
      intro a ha
      simpa using hall a ha
    rw [hfilter] at hc
    simpa using hc

theorem validate_input_content_ok (content : Option ParsedContent)
    (c : ParsedContent) (h : validate_input_content content = .ok c) :
    content = some c := by
  cases content with
  | none => exact Except.noConfusion h
  | some c0 =>
    unfold validate_input_content at h
    dsimp only at h
    split_ifs at h <;>
      first
        | exact Except.noConfusion h
        | (rw [Except.ok.injEq] at h; rw [h])

/-- Inversion of a successful `generate_diagram` call: the diagram's nodes are
the layout output over the synthesized nodes and edges, its edges are the
synthesized edges, and the comprehensive validation found no issue. -/
theorem generate_diagram_ok_inv (o : MathOracle) (s : EngineState)
    (c : ParsedContent) (dd : DiagramData)
    (h : generate_diagram o s (some c) = .ok dd) :
    apply_auto_layout o (base_nodes c) (base_edges c) c.suggested_diagram_type =
      .ok dd.nodes ∧
    dd.edges = base_edges c ∧
    dd.diagram_type = c.suggested_diagram_type ∧
    (validate_diagram_comprehensive dd).issues = [] := by
  unfold generate_diagram at h
  cases hv : validate_input_content (some c) with
  | error e => rw [hv] at h; exact Except.noConfusion h
  | ok c' =>
    have hc2 : c = c' := by
      have := validate_input_content_ok (some c) c' hv
      exact Option.some.inj this
    subst hc2
    rw [hv] at h
    dsimp only at h
    rw [show reset_counters s = { node_counter := 0, node_id_map := [] } from rfl]
      at h
    cases hb : build_diagram_data o { node_counter := 0, node_id_map := [] } c with
    | error e => rw [hb] at h; exact Except.noConfusion h
    | ok dd0 =>
      rw [hb] at h
      obtain ⟨rfl, hissues⟩ := final_validation_gate_ok dd0 dd h
      unfold build_diagram_data at hb
      dsimp only at hb
      cases hl : apply_auto_layout o (base_nodes c) (base_edges c)
          c.suggested_diagram_type with
      | error msg =>
        rw [show (generate_nodes { node_counter := 0, node_id_map := [] }
          c.entities).1 = base_nodes c from rfl] at hb
        rw [show (generate_edges (generate_nodes
          { node_counter := 0, node_id_map := [] } c.entities).2
          c.relationships).1 = base_edges c from rfl] at hb
        rw [hl] at hb
        exact Except.noConfusion hb
      | ok out =>
        rw [show (generate_nodes { node_counter := 0, node_id_map := [] }
          c.entities).1 = base_nodes c from rfl] at hb
        rw [show (generate_edges (generate_nodes
          { node_counter := 0, node_id_map := [] } c.entities).2
          c.relationships).1 = base_edges c from rfl] at hb
        rw [hl] at hb
        rw [Except.ok.injEq] at hb
        subst hb
        exact ⟨rfl, rfl, rfl, hissues⟩

theorem orphan_issue_recorded (dd : DiagramData)
    (h : validate_edge_references dd.nodes dd.edges = false) :
    (validate_diagram_comprehensive dd).is_valid = false ∧
    hasErrorIssue (validate_diagram_comprehensive dd) "ORPHANED_EDGES" = true := by
  unfold validate_diagram_comprehensive hasErrorIssue
  dsimp only
  rw [h]
  simp only [Bool.not_false, if_true]
  constructor
  · split_ifs <;> simp
  · split_ifs <;> simp [List.any_append]

theorem no_unpositioned_warning (dd : DiagramData)
    (h : ∀ n ∈ dd.nodes, n.position.isSome) :
    (validate_diagram_comprehensive dd).warnings.all
      (fun w => w.code != "UNPOSITIONED_NODES") = true := by
  have hfilter : dd.nodes.filter (fun node => node.position.isNone) = [] := by
    rw [List.filter_eq_nil_iff]
    intro n hn
    simp [Option.isNone_iff_eq_none]
    intro hnone
    have := h n hn
    rw [hnone] at this
    exact Bool.noConfusion this
  unfold validate_diagram_comprehensive
  dsimp only
  rw [hfilter]
  simp only [List.isEmpty_nil, Bool.not_true, Bool.false_eq_true, if_false]
  split_ifs <;> split <;> simp [List.all_append]

theorem final_validation_gate_raises (dd : DiagramData)
    (hv : (validate_diagram_comprehensive dd).is_valid = false)
    (he : hasErrorIssue (validate_diagram_comprehensive dd) "ORPHANED_EDGES" = true) :
    isValidationError (final_validation_gate dd) = true := by
  unfold hasErrorIssue at he
  obtain ⟨i, hi, hprop⟩ := List.any_eq_true.mp he
  have hsev : (i.severity == ValidationSeverity.error) = true := by
    simp only [Bool.and_eq_true] at hprop
    exact hprop.1
  have hmem : i ∈ (validate_diagram_comprehensive dd).issues.filter
      (fun issue => issue.severity == ValidationSeverity.error) :=
    List.mem_filter.mpr ⟨hi, hsev⟩
  unfold final_validation_gate
  dsimp only
  rw [hv]
  simp only [Bool.false_eq_true, if_false]
  rw [if_neg]
  · rfl
  · intro hempty
    rw [List.isEmpty_iff] at hempty
    rw [hempty] at hmem
    exact absurd hmem (List.not_mem_nil i)

/-- C2: every diagram returned by `generate_diagram` has edge referential
integrity (each edge's source and target id occur among the node ids); any
`DiagramData` violating it gets an error-severity `ORPHANED_EDGES` issue and
`is_valid = false` from `validate_diagram_comprehensive`; and when the built
diagram violates it, `generate_diagram` raises a `DiagramValidationError`
instead of returning. -/
theorem C2_edge_referential_integrity :
    (∀ (o : MathOracle) (s : EngineState) (c : ParsedContent) (dd : DiagramData),
      generate_diagram o s (some c) = Except.ok dd →
      ∀ e ∈ dd.edges,
        (dd.nodes.map (fun n => n.id)).contains e.source_id = true ∧
        (dd.nodes.map (fun n => n.id)).contains e.target_id = true) ∧
    (∀ dd : DiagramData, validate_edge_references dd.nodes dd.edges = false →
      (validate_diagram_comprehensive dd).is_valid = false ∧
      hasErrorIssue (validate_diagram_comprehensive dd) "ORPHANED_EDGES" = true) ∧
    (∀ (o : MathOracle) (s : EngineState) (content : Option ParsedContent)
        (c : ParsedContent) (dd : DiagramData),
      validate_input_content content = Except.ok c →
      build_diagram_data o (reset_counters s) c = Except.ok dd →
      validate_edge_references dd.nodes dd.edges = false →
      isValidationError (generate_diagram o s content) = true) := by
  refine ⟨?_, fun dd h => orphan_issue_recorded dd h, ?_⟩
  · intro o s c dd h
    obtain ⟨_, _, _, hissues⟩ := generate_diagram_ok_inv o s c dd h
    have hv : validate_edge_references dd.nodes dd.edges = true := by
      by_contra hfalse
      rw [Bool.not_eq_true] at hfalse
      have hbad := (orphan_issue_recorded dd hfalse).1
      rw [validate_is_valid_eq, hissues] at hbad
      simp at hbad
    intro e he
    unfold validate_edge_references at hv
    dsimp only at hv
    have hedge := List.all_eq_true.mp hv e he
    simp only [Bool.and_eq_true] at hedge
    exact hedge
  · intro o s content c dd hvc hb hviol
    unfold generate_diagram
    rw [hvc]
    dsimp only
    rw [hb]
    have h2 := orphan_issue_recorded dd hviol
    exact final_validation_gate_raises dd h2.1 h2.2

/-- C2 exercised at concrete inputs: the accepted sequence fixture satisfies
edge integrity, and the fixture whose relationship targets an unknown entity
yields an orphaned edge, the `ORPHANED_EDGES` issue, and an in-place
`DiagramValidationError`. -/
theorem C2_edge_referential_integrity_witness :
    (∀ e ∈ (okDiagram (generate_diagram oracle0 dirtyState (some seqContent))).edges,
      ((okDiagram (generate_diagram oracle0 dirtyState (some seqContent))).nodes.map
        (fun n => n.id)).contains e.source_id = true ∧
      ((okDiagram (generate_diagram oracle0 dirtyState (some seqContent))).nodes.map
        (fun n => n.id)).contains e.target_id = true) ∧
    ((validate_diagram_comprehensive
        (okDiagram (build_diagram_data oracle0 (reset_counters dirtyState)
          orphanContent))).is_valid = false ∧
      hasErrorIssue (validate_diagram_comprehensive
        (okDiagram (build_diagram_data oracle0 (reset_counters dirtyState)
          orphanContent))) "ORPHANED_EDGES" = true) ∧
    isValidationError
      (generate_diagram oracle0 dirtyState (some orphanContent)) = true := by
  refine ⟨C2_edge_referential_integrity.1 oracle0 dirtyState seqContent
      (okDiagram (generate_diagram oracle0 dirtyState (some seqContent))) rfl,
    C2_edge_referential_integrity.2.1
      (okDiagram (build_diagram_data oracle0 (reset_counters dirtyState)
        orphanContent)) (by decide),
    C2_edge_referential_integrity.2.2 oracle0 dirtyState (some orphanContent)
      orphanContent
      (okDiagram (build_diagram_data oracle0 (reset_counters dirtyState)
        orphanContent)) rfl rfl (by decide)⟩

/-- C10: every diagram returned by `generate_diagram` carries a position on
every node (each layout branch positions every node), so the comprehensive
validation emits no `UNPOSITIONED_NODES` warning for it. -/
theorem C10_all_nodes_positioned (o : MathOracle) (s : EngineState)
    (c : ParsedContent) (dd : DiagramData)
    (h : generate_diagram o s (some c) = Except.ok dd) :
    (∀ n ∈ dd.nodes, n.position.isSome = true) ∧
    (validate_diagram_comprehensive dd).warnings.all
      (fun w => w.code != "UNPOSITIONED_NODES") = true := by
  obtain ⟨hl, _, _, _⟩ := generate_diagram_ok_inv o s c dd h
  have hcore := apply_auto_layout_core o (base_nodes c) (base_edges c)
    c.suggested_diagram_type dd.nodes hl
  exact ⟨hcore.2.2, no_unpositioned_warning dd hcore.2.2⟩

/-- C10 exercised at the accepted sequence fixture. -/
theorem C10_all_nodes_positioned_witness :
    (∀ n ∈ (okDiagram (generate_diagram oracle0 dirtyState (some seqContent))).nodes,
      n.position.isSome = true) ∧
    (validate_diagram_comprehensive
      (okDiagram (generate_diagram oracle0 dirtyState (some seqContent)))).warnings.all
      (fun w => w.code != "UNPOSITIONED_NODES") = true :=
  C10_all_nodes_positioned oracle0 dirtyState seqContent
    (okDiagram (generate_diagram oracle0 dirtyState (some seqContent))) rfl

theorem generate_nodes_labels (es : List Entity) :
    ∀ (s : EngineState), ∀ n ∈ (generate_nodes s es).1,
      ∃ e ∈ es, n.label = clean_label e.name := by
  induction es with
  | nil =>
    intro s n hn
    exact absurd hn (by simp [generate_nodes])
  | cons e rest ih =>
    intro s n hn
    simp only [generate_nodes] at hn
    rcases List.mem_cons.mp hn with h1 | h2
    · exact ⟨e, List.mem_cons_self e rest, by rw [h1]⟩
    · obtain ⟨e', he', hl⟩ := ih _ n h2
      exact ⟨e', List.mem_cons_of_mem e he', hl⟩

theorem clean_label_length (label : String) : (clean_label label).length ≤ 30 := by
  unfold clean_label
  dsimp only
  split_ifs with h
  · show (List.take 27 (collapseWs (pyStrip label).data) ++ "...".data).length ≤ 30
    rw [List.length_append, List.length_take]
    have h3 : ("...".data).length = 3 := rfl
    omega
  · show (collapseWs (pyStrip label).data).length ≤ 30
    omega

theorem clean_label_truncated (label : String)
    (h : 30 < (collapseWs (pyStrip label).data).length) :
    clean_label label =
      String.mk ((collapseWs (pyStrip label).data).take 27 ++ "...".data) ∧
    "...".data <:+ (clean_label label).data := by
  have he : clean_label label =
      String.mk ((collapseWs (pyStrip label).data).take 27 ++ "...".data) := by
    unfold clean_label
    dsimp only
    rw [if_pos h]
  refine ⟨he, ?_⟩
  rw [he]
  exact List.suffix_append _ _

theorem generated_labels (o : MathOracle) (s : EngineState) (c : ParsedContent)
    (dd : DiagramData) (h : generate_diagram o s (some c) = Except.ok dd) :
    ∀ n ∈ dd.nodes, ∃ e ∈ c.entities, n.label = clean_label e.name := by
  obtain ⟨hl, _, _, _⟩ := generate_diagram_ok_inv o s c dd h
  have hcore := apply_auto_layout_core o (base_nodes c) (base_edges c)
    c.suggested_diagram_type dd.nodes hl
  intro n hn
  have hmem : eraseP n ∈ (base_nodes c).map eraseP :=
    hcore.1.subset (List.mem_map_of_mem eraseP hn)
  obtain ⟨m, hm, hme⟩ := List.mem_map.mp hmem
  obtain ⟨e, he, hle⟩ := generate_nodes_labels c.entities _ m hm
  have hlabel : m.label = n.label := by
    have hpp := congrArg Node.label hme
    simpa [eraseP] using hpp
  exact ⟨e, he, hlabel ▸ hle⟩

/-- C9: every node of a diagram returned by `generate_diagram` has a label of
at most 30 characters, each such label is `_clean_label` of some entity name
(whitespace-normalized), `_clean_label` never exceeds 30 characters, and a
label that was truncated is the first 27 characters followed by `"..."`. -/
theorem C9_label_invariant :
    (∀ (o : MathOracle) (s : EngineState) (c : ParsedContent) (dd : DiagramData),
      generate_diagram o s (some c) = Except.ok dd →
      ∀ n ∈ dd.nodes, n.label.length ≤ 30 ∧
        ∃ e ∈ c.entities, n.label = clean_label e.name) ∧
    (∀ label : String, (clean_label label).length ≤ 30) ∧
    (∀ label : String, 30 < (collapseWs (pyStrip label).data).length →
      clean_label label =
        String.mk ((collapseWs (pyStrip label).data).take 27 ++ "...".data) ∧
      "...".data <:+ (clean_label label).data) := by
  refine ⟨?_, clean_label_length, clean_label_truncated⟩
  intro o s c dd h n hn
  obtain ⟨e, he, hne⟩ := generated_labels o s c dd h n hn
  exact ⟨hne ▸ clean_label_length e.name, e, he, hne⟩

/-- C9 exercised at the accepted sequence fixture and at a 48-character
label. -/
theorem C9_label_invariant_witness :
    (∀ n ∈ (okDiagram (generate_diagram oracle0 dirtyState (some seqContent))).nodes,
      n.label.length ≤ 30 ∧
      ∃ e ∈ seqContent.entities, n.label = clean_label e.name) ∧
    (clean_label "This is a very long entity name exceeding thirty" =
      String.mk ((collapseWs
        (pyStrip "This is a very long entity name exceeding thirty").data).take 27 ++
        "...".data) ∧
     "...".data <:+
       (clean_label "This is a very long entity name exceeding thirty").data) :=
  ⟨C9_label_invariant.1 oracle0 dirtyState seqContent
      (okDiagram (generate_diagram oracle0 dirtyState (some seqContent))) rfl,
    C9_label_invariant.2.2 "This is a very long entity name exceeding thirty"
      (by decide)⟩

/-- The specification's description of node identifiers: one id per entity,
formed by stripping non-alphanumerics from the name and appending a counter
that increases by one per node (`k` ids already handed out). -/
def node_ids_spec : Nat → List Entity → List String
  | _, [] => []
  | k, e :: rest =>
    (cleanIdOf e.name ++ "_" ++ toString (k + 1)) :: node_ids_spec (k + 1) rest

theorem generate_nodes_length (es : List Entity) :
    ∀ s : EngineState, ((generate_nodes s es).1).length = es.length := by
  induction es with
  | nil => intro s; rfl
  | cons e rest ih =>
    intro s
    simp only [generate_nodes, List.length_cons, ih]

theorem generate_nodes_position_none (es : List Entity) :
    ∀ s : EngineState, ∀ n ∈ (generate_nodes s es).1, n.position = none := by
  induction es with
  | nil =>
    intro s n hn
    exact absurd hn (by simp [generate_nodes])
  | cons e rest ih =>
    intro s n hn
    simp only [generate_nodes] at hn
    rcases List.mem_cons.mp hn with h1 | h2
    · rw [h1]
    · exact ih _ n h2

theorem generate_nodes_ids (es : List Entity) :
    ∀ s : EngineState,
      (es.map Entity.name).Nodup →
      (∀ e ∈ es, ∀ p ∈ s.node_id_map, p.1 ≠ e.name) →
      ((generate_nodes s es).1).map (fun n => n.id) =
        node_ids_spec s.node_counter es := by
  induction es with
  | nil => intro s _ _; rfl
  | cons e rest ih =>
    intro s hnodup hfresh
    rw [List.map_cons, List.nodup_cons] at hnodup
    obtain ⟨hnotin, htail⟩ := hnodup
    have hfind : s.node_id_map.find? (fun p => p.1 == e.name) = none := by
      rw [List.find?_eq_none]
      intro p hp
      simpa using hfresh e (List.mem_cons_self e rest) p hp
    have hr : get_or_create_node_id s e.name =
        (cleanIdOf e.name ++ "_" ++ toString (s.node_counter + 1),
         { node_counter := s.node_counter + 1,
           node_id_map := s.node_id_map ++
             [(e.name, cleanIdOf e.name ++ "_" ++ toString (s.node_counter + 1))] }) := by
      unfold get_or_create_node_id
      rw [hfind]
    have hfresh2 : ∀ e2 ∈ rest,
        ∀ p ∈ s.node_id_map ++
          [(e.name, cleanIdOf e.name ++ "_" ++ toString (s.node_counter + 1))],
        p.1 ≠ e2.name := by
      intro e2 he2 p hp
      rcases List.mem_append.mp hp with hold | hnew
      · exact hfresh e2 (List.mem_cons_of_mem e he2) p hold
      · have hpe : p = (e.name,
            cleanIdOf e.name ++ "_" ++ toString (s.node_counter + 1)) := by
          simpa using hnew
        rw [hpe]
        intro heq
        have hname : e.name = e2.name := heq
        apply hnotin
        rw [hname]
        exact List.mem_map_of_mem Entity.name he2
    simp only [generate_nodes, hr, node_ids_spec, List.map_cons, List.cons.injEq]
    exact ⟨trivial, ih _ htail hfresh2⟩

/-- C5 (amended): `_generate_nodes` creates one node per entity OCCURRENCE of
the input (not per distinct name), each node without a position until layout
runs; when the entity names are pairwise distinct, the node ids follow the
claimed scheme (non-alphanumerics stripped from the name, then `"_"` and a
per-call counter starting at 1); and the node list of a returned diagram is
the synthesized list up to the layout's reordering — the sequence layout
moves actor nodes first, every other layout keeps the first-seen order. -/
theorem C5_node_identity_amended :
    (∀ (s : EngineState) (es : List Entity),
      ((generate_nodes s es).1).length = es.length ∧
      ∀ n ∈ (generate_nodes s es).1, n.position = none) ∧
    (∀ c : ParsedContent,
      (c.entities.map Entity.name).Nodup →
      (base_nodes c).map (fun n => n.id) = node_ids_spec 0 c.entities) ∧
    (∀ (o : MathOracle) (s : EngineState) (c : ParsedContent) (dd : DiagramData),
      generate_diagram o s (some c) = Except.ok dd →
      (dd.nodes.map eraseP).Perm ((base_nodes c).map eraseP) ∧
      (c.suggested_diagram_type ≠ DiagramType.sequence →
        dd.nodes.map eraseP = (base_nodes c).map eraseP)) := by
  refine ⟨fun s es => ⟨generate_nodes_length es s, generate_nodes_position_none es s⟩,
    ?_, ?_⟩
  · intro c hnodup
    exact generate_nodes_ids c.entities { node_counter := 0, node_id_map := [] }
      hnodup (fun e _ p hp => absurd hp (List.not_mem_nil p))
  · intro o s c dd h
    obtain ⟨hl, _, _, _⟩ := generate_diagram_ok_inv o s c dd h
    have hcore := apply_auto_layout_core o (base_nodes c) (base_edges c)
      c.suggested_diagram_type dd.nodes hl
    exact ⟨hcore.1, hcore.2.1⟩

/-- Counterexample to C5 as stated: an input listing the entity name `"User"`
twice is accepted end to end, yet the returned diagram holds TWO nodes (both
with id `"User_1"`) for the ONE distinct entity name. -/
theorem C5_counterexample :
    (okNodes (generate_diagram oracle0 dirtyState (some dupContent))).map
      (fun n => n.id) = ["User_1", "User_1"] ∧
    ((dupContent.entities.map Entity.name).dedup).length = 1 ∧
    (generate_diagram oracle0 dirtyState (some dupContent)).isOk = true := by
  refine ⟨by decide, by decide, by decide⟩

/-- C5 (amended) exercised at the sequence fixture, whose two entity names
are distinct. -/
theorem C5_node_identity_amended_witness :
    (((generate_nodes dirtyState seqContent.entities).1).length =
        seqContent.entities.length ∧
      ∀ n ∈ (generate_nodes dirtyState seqContent.entities).1,
        n.position = none) ∧
    (base_nodes seqContent).map (fun n => n.id) =
      node_ids_spec 0 seqContent.entities ∧
    ((okDiagram (generate_diagram oracle0 dirtyState (some seqContent))).nodes.map
        eraseP).Perm ((base_nodes seqContent).map eraseP) :=
  ⟨C5_node_identity_amended.1 dirtyState seqContent.entities,
    C5_node_identity_amended.2.1 seqContent (by decide),
    (C5_node_identity_amended.2.2 oracle0 dirtyState seqContent
      (okDiagram (generate_diagram oracle0 dirtyState (some seqContent))) rfl).1⟩
